import Mathlib

/-!
Verification of the path-resolution / redirect engine and the slug index
builder of `src/server.py` (a static blog server with legacy-URL redirects).

Modelling conventions (shallow embedding):

* A request path is represented by the list of segments obtained by splitting
  the (already URL-parsed) path string on `/`.  Splitting on `/` is a
  bijection between strings and non-empty lists of `/`-free segments, so each
  `re.fullmatch` in `do_GET` becomes a decidable predicate on the segment
  list; e.g. the string `/blog/us/tips/x` is the list
  `["", "blog", "us", "tips", "x"]` and `/blog/x/` is `["", "blog", "x", ""]`.
* A filesystem path is a list of segments relative to the server's workspace
  directory; the blog content root `BLOG_ROOT` is the segment `"blog"`.
* The filesystem and the startup-built slug index are abstracted by an
  environment `Env` of read-only query functions (`os.path.isfile`,
  `os.path.isdir`, `SLUG_META.get`), exactly the three external queries
  `do_GET` performs.
* Each numbered rule of `do_GET` (source lines 98-315) is one `st_*`
  function; a rule that does not fire falls through to the next stage, in
  the source's order.  `resolve` is the whole cascade.
-/

/-- A filesystem path, as segments relative to the workspace directory. -/
abbrev FsPath := List String

/-- `class SlugMeta` (server.py lines 15-20): one record of the slug index. -/
structure SlugMeta where
  slug : String
  abs_index_path : FsPath
  language : Option String
  category : Option String
deriving Repr, DecidableEq

/-- The read-only environment a resolution queries: the slug index built at
startup (`SLUG_META.get`) and the filesystem existence checks. -/
structure Env where
  slugMeta : String → Option SlugMeta
  isFile : FsPath → Bool
  isDir : FsPath → Bool

/-- The four resolution outcomes of the spec: `Serve`, `RedirectPermanent`
(the location as path segments), `NotFound`, `Delegate` (fall back to
`super().do_GET()`). -/
inductive Outcome where
  | serve (absolutePath : FsPath)
  | redirectPermanent (locationPath : List String)
  | notFound
  | delegate
deriving Repr, DecidableEq

/-- The `i`-th segment of a path (out-of-range reads give `""`; every guard
using `seg` also constrains the length, so the default is never decisive). -/
def seg (p : List String) (i : Nat) : String := p.getD i ""

/-- `re.fullmatch r"[0-9]+"`: non-empty and all decimal digits. -/
def isDigits (s : String) : Bool := !s.toList.isEmpty && s.toList.all Char.isDigit

/-- server.py line 62. -/
def LANG_CODES : List String := ["us", "mexico", "latam"]

/-- server.py lines 50-60. -/
def SECTION_PREFIXES : List String :=
  ["us", "mexico", "latam", "uncategorized", "tag", "author", "page", "our-founder", "press"]

/-- server.py lines 64-70. -/
def ASSET_PREFIXES : List String := ["wp-content", "cdn-cgi", "wp-json", "comments", "feed"]

/-- server.py line 72. -/
def STATIC_PAGES : List String := ["faq", "about", "press"]

/-- `os.path.join a b` for a single `/`-free component `b`: appends a
segment, except that a trailing path separator (a trailing `""` segment)
is not doubled. -/
def pathJoin (a : FsPath) (b : String) : FsPath :=
  match a.getLast? with
  | none => [b]
  | some "" => a.dropLast ++ [b]
  | some _ => a ++ [b]

/-- `_canonical_slug_url` (lines 317-321).  Python truthiness: the nested
form is used only when `language` and `category` are both present *and*
non-empty strings. -/
def canonicalSlugUrl (meta : SlugMeta) : List String :=
  match meta.language, meta.category with
  | some l, some c =>
      if l ≠ "" ∧ c ≠ "" then ["", "blog", l, c, meta.slug] else ["", "blog", meta.slug]
  | _, _ => ["", "blog", meta.slug]

/-- `_serve_absolute` (lines 323-338): serves the file, or 404 when the file
does not exist. -/
def serveAbs (env : Env) (pth : FsPath) : Outcome :=
  if env.isFile pth then Outcome.serve pth else Outcome.notFound

/-! ### The regular-expression matchers of `do_GET`, on segment lists -/

/-- `re.fullmatch r"/([0-9]+)/index\.html"` (line 119). -/
def m_root_num_idx (p : List String) : Option String :=
  if p.length = 3 ∧ seg p 0 = "" ∧ isDigits (seg p 1) ∧ seg p 2 = "index.html"
  then some (seg p 1) else none

/-- `re.fullmatch r"/([0-9]+)/?"` (line 123). -/
def m_root_num_dir (p : List String) : Option String :=
  if (p.length = 2 ∨ (p.length = 3 ∧ seg p 2 = "")) ∧ seg p 0 = "" ∧ isDigits (seg p 1)
  then some (seg p 1) else none

/-- `re.fullmatch r"/blog/(us|mexico|latam)"` (line 151). -/
def m_lang (p : List String) : Option String :=
  if p.length = 3 ∧ seg p 0 = "" ∧ seg p 1 = "blog" ∧ seg p 2 ∈ LANG_CODES
  then some (seg p 2) else none

/-- `re.fullmatch r"/blog/(us|mexico|latam)/([^/]+)/index\.html"` (line 160). -/
def m_lang_name_idx (p : List String) : Option (String × String) :=
  if p.length = 5 ∧ seg p 0 = "" ∧ seg p 1 = "blog" ∧ seg p 2 ∈ LANG_CODES ∧
     seg p 3 ≠ "" ∧ seg p 4 = "index.html"
  then some (seg p 2, seg p 3) else none

/-- `re.fullmatch r"/blog/(us|mexico|latam)/([^/]+)/"` (line 166). -/
def m_lang_name_dir (p : List String) : Option (String × String) :=
  if p.length = 5 ∧ seg p 0 = "" ∧ seg p 1 = "blog" ∧ seg p 2 ∈ LANG_CODES ∧
     seg p 3 ≠ "" ∧ seg p 4 = ""
  then some (seg p 2, seg p 3) else none

/-- `re.fullmatch r"/blog/(us|mexico|latam)/([^/]+)"` (line 174). -/
def m_lang_cat (p : List String) : Option (String × String) :=
  if p.length = 4 ∧ seg p 0 = "" ∧ seg p 1 = "blog" ∧ seg p 2 ∈ LANG_CODES ∧ seg p 3 ≠ ""
  then some (seg p 2, seg p 3) else none

/-- `re.fullmatch r"/blog/([^/]+)/([^/]+)/index\.html"` (line 183). -/
def m_cat_slug_idx (p : List String) : Option (String × String) :=
  if p.length = 5 ∧ seg p 0 = "" ∧ seg p 1 = "blog" ∧ seg p 2 ≠ "" ∧
     seg p 3 ≠ "" ∧ seg p 4 = "index.html"
  then some (seg p 2, seg p 3) else none

/-- `re.fullmatch r"/blog/([^/]+)/([^/]+)/"` (line 189). -/
def m_cat_slug_dir (p : List String) : Option (String × String) :=
  if p.length = 5 ∧ seg p 0 = "" ∧ seg p 1 = "blog" ∧ seg p 2 ≠ "" ∧
     seg p 3 ≠ "" ∧ seg p 4 = ""
  then some (seg p 2, seg p 3) else none

/-- `re.fullmatch r"/blog/([0-9]+)"` (line 197). -/
def m_page (p : List String) : Option String :=
  if p.length = 3 ∧ seg p 0 = "" ∧ seg p 1 = "blog" ∧ isDigits (seg p 2)
  then some (seg p 2) else none

/-- `re.fullmatch r"/blog/page/([0-9]+)/index\.html"` (line 208). -/
def m_page_old_idx (p : List String) : Option String :=
  if p.length = 5 ∧ seg p 0 = "" ∧ seg p 1 = "blog" ∧ seg p 2 = "page" ∧
     isDigits (seg p 3) ∧ seg p 4 = "index.html"
  then some (seg p 3) else none

/-- `re.fullmatch r"/blog/page/([0-9]+)/?"` (line 212). -/
def m_page_old_dir (p : List String) : Option String :=
  if (p.length = 4 ∨ (p.length = 5 ∧ seg p 4 = "")) ∧ seg p 0 = "" ∧ seg p 1 = "blog" ∧
     seg p 2 = "page" ∧ isDigits (seg p 3)
  then some (seg p 3) else none

/-- `re.fullmatch r"/(us|mexico|latam)(?:/index\.html)?/?"` (line 218). -/
def m_legacy_lang (p : List String) : Option String :=
  if seg p 0 = "" ∧ seg p 1 ∈ LANG_CODES ∧
     (p.length = 2 ∨ (p.length = 3 ∧ (seg p 2 = "" ∨ seg p 2 = "index.html")) ∨
      (p.length = 4 ∧ seg p 2 = "index.html" ∧ seg p 3 = ""))
  then some (seg p 1) else none

/-- `re.fullmatch r"/(us|mexico|latam)/([^/]+)(?:/index\.html)?/?"` (line 223). -/
def m_legacy_lang_cat (p : List String) : Option (String × String) :=
  if seg p 0 = "" ∧ seg p 1 ∈ LANG_CODES ∧ seg p 2 ≠ "" ∧
     (p.length = 3 ∨ (p.length = 4 ∧ (seg p 3 = "" ∨ seg p 3 = "index.html")) ∨
      (p.length = 5 ∧ seg p 3 = "index.html" ∧ seg p 4 = ""))
  then some (seg p 1, seg p 2) else none

/-- `re.fullmatch r"/blog/([^/]+)"` (lines 231 and 253). -/
def m_flat (p : List String) : Option String :=
  if p.length = 3 ∧ seg p 0 = "" ∧ seg p 1 = "blog" ∧ seg p 2 ≠ ""
  then some (seg p 2) else none

/-- `re.fullmatch r"/blog/([^/]+)/([^/]+)/([^/]+)"` (line 241). -/
def m_nested (p : List String) : Option (String × String × String) :=
  if p.length = 5 ∧ seg p 0 = "" ∧ seg p 1 = "blog" ∧ seg p 2 ≠ "" ∧
     seg p 3 ≠ "" ∧ seg p 4 ≠ ""
  then some (seg p 2, seg p 3, seg p 4) else none

/-- `re.fullmatch r"/blog/(?:.*/)?([^/]+)/index\.html"` (line 262): any path
under `/blog/` whose last two segments are a non-empty name followed by
`index.html`; the capture (greedy `.*`) is the second-to-last segment. -/
def m_deep_idx (p : List String) : Option String :=
  if 4 ≤ p.length ∧ seg p 0 = "" ∧ seg p 1 = "blog" ∧
     seg p (p.length - 1) = "index.html" ∧ seg p (p.length - 2) ≠ ""
  then some (seg p (p.length - 2)) else none

/-- `re.fullmatch r"/blog/(?:.*/)?([^/]+)/"` (line 270). -/
def m_deep_dir (p : List String) : Option String :=
  if 4 ≤ p.length ∧ seg p 0 = "" ∧ seg p 1 = "blog" ∧
     seg p (p.length - 1) = "" ∧ seg p (p.length - 2) ≠ ""
  then some (seg p (p.length - 2)) else none

/-- `re.fullmatch r"/(?:<sections>)/.*/([^/]+)/index\.html"` (line 278):
the mandatory `/.*/` forces at least one segment between the section name
and the captured one, hence length at least 5. -/
def m_non_blog_idx (p : List String) : Option String :=
  if 5 ≤ p.length ∧ seg p 0 = "" ∧ seg p 1 ∈ SECTION_PREFIXES ∧
     seg p (p.length - 1) = "index.html" ∧ seg p (p.length - 2) ≠ ""
  then some (seg p (p.length - 2)) else none

/-- `re.fullmatch r"/(?:<sections>)/.*/([^/]+)/"` (line 286). -/
def m_non_blog_dir (p : List String) : Option String :=
  if 5 ≤ p.length ∧ seg p 0 = "" ∧ seg p 1 ∈ SECTION_PREFIXES ∧
     seg p (p.length - 1) = "" ∧ seg p (p.length - 2) ≠ ""
  then some (seg p (p.length - 2)) else none

/-- `re.fullmatch r"/.*/([^/]+)/index\.html"` (line 295). -/
def m_any_idx (p : List String) : Option String :=
  if 4 ≤ p.length ∧ seg p 0 = "" ∧
     seg p (p.length - 1) = "index.html" ∧ seg p (p.length - 2) ≠ ""
  then some (seg p (p.length - 2)) else none

/-- `re.fullmatch r"/.*/([^/]+)/"` (line 301). -/
def m_any_dir (p : List String) : Option String :=
  if 4 ≤ p.length ∧ seg p 0 = "" ∧ seg p (p.length - 1) = "" ∧ seg p (p.length - 2) ≠ ""
  then some (seg p (p.length - 2)) else none

/-- `clean_path.startswith("/blog/")` (line 294). -/
def startsBlogSlash (p : List String) : Prop :=
  3 ≤ p.length ∧ seg p 0 = "" ∧ seg p 1 = "blog"

instance (p : List String) : Decidable (startsBlogSlash p) := by
  unfold startsBlogSlash; infer_instance

/-- The hit condition of the asset-prefix loop (lines 103-104):
`clean_path == f"/{prefix}"` or `clean_path.startswith(f"/{prefix}/")`. -/
def assetHit (p : List String) : Prop :=
  ∃ pre ∈ ASSET_PREFIXES, p = ["", pre] ∨ (3 ≤ p.length ∧ seg p 0 = "" ∧ seg p 1 = pre)

instance (p : List String) : Decidable (assetHit p) := by
  unfold assetHit; infer_instance

/-! ### The rule cascade of `do_GET`, bottom (latest rule) up -/

/-- Rules 8-9 (lines 308-315): favicon fallback, then delegate to generic
static file handling. -/
def st_favicon (env : Env) (p : List String) : Outcome :=
  if p = ["", "favicon.ico"] then
    if env.isFile ["blog", "favicon.ico"] then Outcome.serve ["blog", "favicon.ico"]
    else Outcome.delegate
  else Outcome.delegate

/-- Rule 7 (lines 293-306): generic catch-all outside `/blog/`. -/
def st_any (env : Env) (p : List String) : Outcome :=
  if startsBlogSlash p then st_favicon env p
  else
    match (m_any_idx p).bind env.slugMeta with
    | some meta => Outcome.redirectPermanent (canonicalSlugUrl meta)
    | none =>
      match (m_any_dir p).bind env.slugMeta with
      | some meta =>
          if env.isFile meta.abs_index_path then
            Outcome.redirectPermanent (canonicalSlugUrl meta)
          else st_favicon env p
      | none => st_favicon env p

/-- Rule 6 (lines 285-291). -/
def st_non_blog_dir (env : Env) (p : List String) : Outcome :=
  match (m_non_blog_dir p).bind env.slugMeta with
  | some meta =>
      if env.isFile meta.abs_index_path then
        Outcome.redirectPermanent (canonicalSlugUrl meta)
      else st_any env p
  | none => st_any env p

/-- Rule 5 (lines 277-283): no file-existence check on the redirect. -/
def st_non_blog_idx (env : Env) (p : List String) : Outcome :=
  match (m_non_blog_idx p).bind env.slugMeta with
  | some meta => Outcome.redirectPermanent (canonicalSlugUrl meta)
  | none => st_non_blog_dir env p

/-- Rule 4 (lines 269-275). -/
def st_deep_dir (env : Env) (p : List String) : Outcome :=
  match (m_deep_dir p).bind env.slugMeta with
  | some meta =>
      if env.isFile meta.abs_index_path then
        Outcome.redirectPermanent (canonicalSlugUrl meta)
      else st_non_blog_idx env p
  | none => st_non_blog_idx env p

/-- Rule 3 (lines 261-267): no file-existence check on the redirect. -/
def st_deep_idx (env : Env) (p : List String) : Outcome :=
  match (m_deep_idx p).bind env.slugMeta with
  | some meta => Outcome.redirectPermanent (canonicalSlugUrl meta)
  | none => st_deep_dir env p

/-- Rule 2b (lines 252-259): old flat blog URL. -/
def st_flat (env : Env) (p : List String) : Outcome :=
  match m_flat p with
  | some slug =>
    match env.slugMeta slug with
    | some meta =>
        if env.isFile meta.abs_index_path then
          Outcome.redirectPermanent (canonicalSlugUrl meta)
        else Outcome.notFound
    | none => Outcome.notFound
  | none => st_deep_idx env p

/-- Rule 2 (lines 240-250): preferred nested blog URL. -/
def st_nested (env : Env) (p : List String) : Outcome :=
  match m_nested p with
  | some (lang, category, slug) =>
    match env.slugMeta slug with
    | some meta =>
        if meta.language = some lang ∧ meta.category = some category ∧
           env.isFile meta.abs_index_path then
          Outcome.serve meta.abs_index_path
        else if env.isFile meta.abs_index_path then
          Outcome.redirectPermanent (canonicalSlugUrl meta)
        else Outcome.notFound
    | none => Outcome.notFound
  | none => st_flat env p

/-- Category-without-language resolution (lines 230-238). -/
def st_possible_category (env : Env) (p : List String) : Outcome :=
  match m_flat p with
  | some name =>
    match LANG_CODES.find? (fun lang => env.isFile ["blog", lang, name, "index.html"]) with
    | some lang => Outcome.redirectPermanent ["", "blog", lang, name]
    | none => st_nested env p
  | none => st_nested env p

/-- Legacy bare `/<lang>/<category>` redirect (lines 222-228). -/
def st_legacy_lang_cat (env : Env) (p : List String) : Outcome :=
  match m_legacy_lang_cat p with
  | some (lang, category) =>
      if env.isFile ["blog", lang, category, "index.html"] then
        Outcome.redirectPermanent ["", "blog", lang, category]
      else st_possible_category env p
  | none => st_possible_category env p

/-- Legacy bare `/<lang>` redirect (lines 217-220). -/
def st_legacy_lang (env : Env) (p : List String) : Outcome :=
  match m_legacy_lang p with
  | some lang => Outcome.redirectPermanent ["", "blog", lang]
  | none => st_legacy_lang_cat env p

/-- Rule 1c, directory form (lines 212-215). -/
def st_page_old_dir (env : Env) (p : List String) : Outcome :=
  match m_page_old_dir p with
  | some pg =>
      Outcome.redirectPermanent (if pg = "1" then ["", "blog"] else ["", "blog", pg])
  | none => st_legacy_lang env p

/-- Rule 1c, index form (lines 207-211). -/
def st_page_old_idx (env : Env) (p : List String) : Outcome :=
  match m_page_old_idx p with
  | some pg =>
      Outcome.redirectPermanent (if pg = "1" then ["", "blog"] else ["", "blog", pg])
  | none => st_page_old_dir env p

/-- Rule 1b, pagination (lines 196-205). -/
def st_page (env : Env) (p : List String) : Outcome :=
  match m_page p with
  | some page_num =>
      if page_num = "1" then Outcome.redirectPermanent ["", "blog"]
      else if env.isFile ["blog", "page", page_num, "index.html"] then
        serveAbs env ["blog", "page", page_num, "index.html"]
      else Outcome.notFound
  | none => st_page_old_idx env p

/-- Rule 1a.y, directory form (lines 189-194). -/
def st_cat_slug_dir (env : Env) (p : List String) : Outcome :=
  match (m_cat_slug_dir p).bind (fun x => env.slugMeta x.2) with
  | some meta =>
      if env.isFile meta.abs_index_path then
        Outcome.redirectPermanent (canonicalSlugUrl meta)
      else st_page env p
  | none => st_page env p

/-- Rule 1a.y, index form (lines 182-188). -/
def st_cat_slug_idx (env : Env) (p : List String) : Outcome :=
  match (m_cat_slug_idx p).bind (fun x => env.slugMeta x.2) with
  | some meta =>
      if env.isFile meta.abs_index_path then
        Outcome.redirectPermanent (canonicalSlugUrl meta)
      else st_cat_slug_dir env p
  | none => st_cat_slug_dir env p

/-- Rule 1a.1, category listing (lines 173-180): serves if present, else
falls through. -/
def st_lang_cat (env : Env) (p : List String) : Outcome :=
  match m_lang_cat p with
  | some (lang, category) =>
      if env.isFile ["blog", lang, category, "index.html"] then
        serveAbs env ["blog", lang, category, "index.html"]
      else st_cat_slug_idx env p
  | none => st_cat_slug_idx env p

/-- Rule 1a.x, directory form (lines 166-171). -/
def st_lang_name_dir (env : Env) (p : List String) : Outcome :=
  match (m_lang_name_dir p).bind (fun x => env.slugMeta x.2) with
  | some meta =>
      if env.isFile meta.abs_index_path then
        Outcome.redirectPermanent (canonicalSlugUrl meta)
      else st_lang_cat env p
  | none => st_lang_cat env p

/-- Rule 1a.x, index form (lines 160-165). -/
def st_lang_name_idx (env : Env) (p : List String) : Outcome :=
  match (m_lang_name_idx p).bind (fun x => env.slugMeta x.2) with
  | some meta =>
      if env.isFile meta.abs_index_path then
        Outcome.redirectPermanent (canonicalSlugUrl meta)
      else st_lang_name_dir env p
  | none => st_lang_name_dir env p

/-- Rule 1a, language listing (lines 150-157). -/
def st_lang (env : Env) (p : List String) : Outcome :=
  match m_lang p with
  | some lang =>
      if env.isFile ["blog", lang, "index.html"] then
        serveAbs env ["blog", lang, "index.html"]
      else Outcome.notFound
  | none => st_lang_name_idx env p

/-- Rule 1, main blog page (lines 146-148). -/
def st_blog_root (env : Env) (p : List String) : Outcome :=
  if p = ["", "blog"] then serveAbs env ["blog", "index.html"] else st_lang env p

/-- `/blog/index.html` redirect to the default language listing (lines 142-144). -/
def st_blog_index (env : Env) (p : List String) : Outcome :=
  if p = ["", "blog", "index.html"] then Outcome.redirectPermanent ["", "blog", "us"]
  else st_blog_root env p

/-- Trailing-slash canonicalization of the listing root (lines 138-140). -/
def st_blog_slash (env : Env) (p : List String) : Outcome :=
  if p = ["", "blog", ""] then Outcome.redirectPermanent ["", "blog"]
  else st_blog_index env p

/-- One iteration of the static-pages loop (lines 129-136). -/
def staticStep (env : Env) (page : String) (p : List String) (next : Outcome) : Outcome :=
  if p = ["", page] then
    if env.isFile ["blog", page, "index.html"] then
      serveAbs env ["blog", page, "index.html"]
    else Outcome.notFound
  else if p = ["", page, "index.html"] ∨ p = ["", page, ""] then
    Outcome.redirectPermanent ["", page]
  else next

/-- Rule 0b, static singleton pages (lines 128-136), loop unrolled over the
concrete `STATIC_PAGES`. -/
def st_static (env : Env) (p : List String) : Outcome :=
  staticStep env "faq" p (staticStep env "about" p (staticStep env "press" p
    (st_blog_slash env p)))

/-- Root-level numeric path, directory form (lines 123-126). -/
def st_root_num_dir (env : Env) (p : List String) : Outcome :=
  match m_root_num_dir p with
  | some page =>
      Outcome.redirectPermanent (if page = "1" then ["", "blog"] else ["", "blog", page])
  | none => st_static env p

/-- Root-level numeric path, index form (lines 118-122). -/
def st_root_num_idx (env : Env) (p : List String) : Outcome :=
  match m_root_num_idx p with
  | some page =>
      Outcome.redirectPermanent (if page = "1" then ["", "blog"] else ["", "blog", page])
  | none => st_root_num_dir env p

/-- Mirrored-host root canonicalization (lines 114-116). -/
def st_mirror (env : Env) (p : List String) : Outcome :=
  if p = ["", "blog2.roomiapp.com"] ∨ p = ["", "blog2.roomiapp.com", ""] ∨
     p = ["", "blog2.roomiapp.com", "index.html"] then
    Outcome.redirectPermanent ["", "blog"]
  else st_root_num_idx env p

/-- The whole `do_GET` cascade (lines 98-315): rule 0 (asset prefixes,
lines 102-112; `break` falls through to the remaining rules), then the
ordered chain of the other rules. -/
def resolve (env : Env) (p : List String) : Outcome :=
  if assetHit p then
    let mapped := "blog" :: p.dropWhile (· == "")
    if env.isDir mapped ∧ env.isFile (pathJoin mapped "index.html") then
      Outcome.serve (pathJoin mapped "index.html")
    else if env.isFile mapped then Outcome.serve mapped
    else st_mirror env p
  else st_mirror env p

/-! ### The HTTP response layer (query-string handling) -/

/-- An HTTP response, as far as the resolution core determines it. -/
inductive Response where
  | ok (absolutePath : FsPath)
  | movedPermanently (location : String)
  | notFound
  | delegate
deriving Repr, DecidableEq

/-- Re-assemble a segment list into the path string it was split from. -/
def renderPath (p : List String) : String := String.intercalate "/" p

/-- `_redirect_permanent` (lines 340-346): the `Location` header is the
target path with the request's query string appended verbatim
(`qs = f"?{parsed.query}" if parsed.query else ""`). -/
def redirectLocation (locationPath : List String) (query : String) : String :=
  renderPath locationPath ++ (if query ≠ "" then "?" ++ query else "")

/-- `do_GET` at the response level: the route is computed from the path
alone; the query string only reappears in a redirect's `Location`. -/
def do_GET (env : Env) (p : List String) (query : String) : Response :=
  match resolve env p with
  | Outcome.serve a => Response.ok a
  | Outcome.redirectPermanent loc => Response.movedPermanently (redirectLocation loc query)
  | Outcome.notFound => Response.notFound
  | Outcome.delegate => Response.delegate

/-! ### The slug index builder (`build_slug_meta_map`, lines 23-43) -/

/-- One `os.walk` entry under `BLOG_ROOT`: the directory's path below the
content root as segments (`[]` for the root itself, whose
`os.path.relpath` is `"."`), and the plain files it directly contains. -/
structure WalkEntry where
  relParts : List String
  files : List String
deriving Repr, DecidableEq

/-- `rel_dir.split(os.sep)`: `os.path.relpath` yields `"."` for the content
root itself and the `os.sep`-joined segments otherwise. -/
def relDirSplit (e : WalkEntry) : List String :=
  if e.relParts = [] then ["."] else e.relParts

/-- `parts = [p for p in rel_dir.split(os.sep) if p]` (line 35). -/
def partsOf (e : WalkEntry) : List String := (relDirSplit e).filter (· ≠ "")

/-- `os.path.basename(current_dir.rstrip(os.sep))`: the last segment after
stripping trailing separators. -/
def basenameRstrip (pth : FsPath) : String := (pth.reverse.dropWhile (· == "")).headD ""

/-- `slug = parts[-1] if parts else os.path.basename(...)` (line 36). -/
def slugOf (e : WalkEntry) : String :=
  match (partsOf e).getLast? with
  | some s => s
  | none => basenameRstrip ("blog" :: e.relParts)

/-- `abs_index_path = os.path.join(current_dir, "index.html")` (line 33). -/
def absIndexOf (e : WalkEntry) : FsPath := pathJoin ("blog" :: e.relParts) "index.html"

/-- `language = parts[0] if len(parts) >= 3 else None` (line 37). -/
def languageOf (e : WalkEntry) : Option String :=
  if 3 ≤ (partsOf e).length then some (seg (partsOf e) 0) else none

/-- `category = parts[1] if len(parts) >= 3 else None` (line 38). -/
def categoryOf (e : WalkEntry) : Option String :=
  if 3 ≤ (partsOf e).length then some (seg (partsOf e) 1) else none

/-- The `SlugMeta` built for a qualifying walk entry (line 40). -/
def metaOf (e : WalkEntry) : SlugMeta :=
  ⟨slugOf e, absIndexOf e, languageOf e, categoryOf e⟩

/-- Dictionary lookup in the insertion-ordered association list that models
`slug_to_meta`. -/
def lookupSlug (m : List (String × SlugMeta)) (s : String) : Option SlugMeta :=
  (m.find? (fun kv => kv.1 == s)).map (·.2)

/-- One iteration of the walk loop (lines 30-42): skip directories without
an `index` document; first occurrence of a slug is inserted, a collision
leaves the map unchanged and records the warning's two paths (discarded
first, retained second — line 42's message). -/
def buildStep (acc : List (String × SlugMeta) × List (FsPath × FsPath)) (e : WalkEntry) :
    List (String × SlugMeta) × List (FsPath × FsPath) :=
  if "index.html" ∈ e.files then
    match lookupSlug acc.1 (slugOf e) with
    | none => (acc.1 ++ [(slugOf e, metaOf e)], acc.2)
    | some prev => (acc.1, acc.2 ++ [(absIndexOf e, prev.abs_index_path)])
  else acc

/-- `build_slug_meta_map` (lines 23-43), as a fold over the walk output,
returning the slug map together with the emitted collision warnings. -/
def build_slug_meta_map (walk : List WalkEntry) :
    List (String × SlugMeta) × List (FsPath × FsPath) :=
  walk.foldl buildStep ([], [])

/-! ### Concrete environments used by witnesses and counterexamples -/

/-- A concrete environment: the slug index built (by the builder itself) from
the given walk output, plus an explicit list of the files that exist. -/
def mkEnv (walk : List WalkEntry) (files : List FsPath) : Env :=
  ⟨lookupSlug (build_slug_meta_map walk).1, fun pth => files.contains pth, fun _ => false⟩

/-- A content tree containing only the flat unit `blog/about/index.html`. -/
def envFlatAbout : Env :=
  mkEnv [⟨["about"], ["index.html"]⟩] [["blog", "about", "index.html"]]

/-- A content tree containing only the nested unit `blog/us/tips/post/index.html`. -/
def envNestedPost : Env :=
  mkEnv [⟨["us", "tips", "post"], ["index.html"]⟩]
    [["blog", "us", "tips", "post", "index.html"]]

/-- An empty content tree: no slugs, no files. -/
def envEmptyFs : Env := mkEnv [] []

/-- A content tree containing only the pagination unit `blog/page/1/index.html`
(which the builder indexes under the slug `"1"`). -/
def envPageOne : Env :=
  mkEnv [⟨["page", "1"], ["index.html"]⟩] [["blog", "page", "1", "index.html"]]

/-- The nested unit `blog/us/tips/post` is indexed but its index file is
missing from the filesystem. -/
def envDeepMissing : Env := mkEnv [⟨["us", "tips", "post"], ["index.html"]⟩] []

/-! ### Helper lemmas: when a matcher cannot fire, a stage falls through -/

theorem seg_last_of_append_two (xs : List String) (a b : String) :
    seg (xs ++ [a, b]) ((xs ++ [a, b]).length - 1) = b := by
  have hl : (xs ++ [a, b]).length - 1 = xs.length + 1 := by simp
  unfold seg
  rw [hl, List.getD_append_right _ _ _ _ (Nat.le_succ _)]
  simp

theorem seg_pen_of_append_two (xs : List String) (a b : String) :
    seg (xs ++ [a, b]) ((xs ++ [a, b]).length - 2) = a := by
  have hl : (xs ++ [a, b]).length - 2 = xs.length := by simp
  unfold seg
  rw [hl, List.getD_append_right _ _ _ _ (Nat.le_refl _)]
  simp

theorem m_root_num_idx_none {p : List String} (h : p.length ≠ 3) :
    m_root_num_idx p = none := by
  unfold m_root_num_idx; exact if_neg fun hg => h hg.1

theorem m_root_num_dir_none {p : List String} (h2 : p.length ≠ 2) (h3 : p.length ≠ 3) :
    m_root_num_dir p = none := by
  unfold m_root_num_dir
  exact if_neg fun hg => by rcases hg.1 with h | h; exact h2 h; exact h3 h.1

theorem m_lang_none {p : List String} (h : p.length ≠ 3) : m_lang p = none := by
  unfold m_lang; exact if_neg fun hg => h hg.1

theorem m_lang_name_idx_none {p : List String} (h : p.length ≠ 5) :
    m_lang_name_idx p = none := by
  unfold m_lang_name_idx; exact if_neg fun hg => h hg.1

theorem m_lang_name_dir_none {p : List String} (h : p.length ≠ 5) :
    m_lang_name_dir p = none := by
  unfold m_lang_name_dir; exact if_neg fun hg => h hg.1

theorem m_lang_cat_none {p : List String} (h : p.length ≠ 4) : m_lang_cat p = none := by
  unfold m_lang_cat; exact if_neg fun hg => h hg.1

theorem m_lang_cat_none_of_lang {p : List String} (h : seg p 2 ∉ LANG_CODES) :
    m_lang_cat p = none := by
  unfold m_lang_cat; exact if_neg fun hg => h hg.2.2.2.1

theorem m_cat_slug_idx_none {p : List String} (h : p.length ≠ 5) :
    m_cat_slug_idx p = none := by
  unfold m_cat_slug_idx; exact if_neg fun hg => h hg.1

theorem m_cat_slug_dir_none {p : List String} (h : p.length ≠ 5) :
    m_cat_slug_dir p = none := by
  unfold m_cat_slug_dir; exact if_neg fun hg => h hg.1

theorem m_page_none {p : List String} (h : p.length ≠ 3) : m_page p = none := by
  unfold m_page; exact if_neg fun hg => h hg.1

theorem m_page_old_idx_none {p : List String} (h : p.length ≠ 5) :
    m_page_old_idx p = none := by
  unfold m_page_old_idx; exact if_neg fun hg => h hg.1

theorem m_page_old_dir_none {p : List String} (h4 : p.length ≠ 4) (h5 : p.length ≠ 5) :
    m_page_old_dir p = none := by
  unfold m_page_old_dir
  exact if_neg fun hg => by rcases hg.1 with h | h; exact h4 h; exact h5 h.1

theorem m_page_old_dir_none_of_digits {p : List String} (h : ¬ isDigits (seg p 3) = true) :
    m_page_old_dir p = none := by
  unfold m_page_old_dir; exact if_neg fun hg => h hg.2.2.2.2

theorem m_legacy_lang_none_of_blog {p : List String} (h : seg p 1 = "blog") :
    m_legacy_lang p = none := by
  unfold m_legacy_lang
  exact if_neg fun hg => by rw [h] at hg; exact absurd hg.2.1 (by decide)

theorem m_legacy_lang_cat_none_of_blog {p : List String} (h : seg p 1 = "blog") :
    m_legacy_lang_cat p = none := by
  unfold m_legacy_lang_cat
  exact if_neg fun hg => by rw [h] at hg; exact absurd hg.2.1 (by decide)

theorem m_flat_none {p : List String} (h : p.length ≠ 3) : m_flat p = none := by
  unfold m_flat; exact if_neg fun hg => h hg.1

theorem m_nested_none {p : List String} (h : p.length ≠ 5) : m_nested p = none := by
  unfold m_nested; exact if_neg fun hg => h hg.1

theorem m_non_blog_idx_none_of_blog {p : List String} (h : seg p 1 = "blog") :
    m_non_blog_idx p = none := by
  unfold m_non_blog_idx
  exact if_neg fun hg => by rw [h] at hg; exact absurd hg.2.2.1 (by decide)

theorem m_non_blog_dir_none_of_blog {p : List String} (h : seg p 1 = "blog") :
    m_non_blog_dir p = none := by
  unfold m_non_blog_dir
  exact if_neg fun hg => by rw [h] at hg; exact absurd hg.2.2.1 (by decide)

theorem not_assetHit_of_blog {p : List String} (h : seg p 1 = "blog") : ¬ assetHit p := by
  rintro ⟨pre, hpre, rfl | ⟨-, -, hseg⟩⟩
  · rw [show seg ["", pre] 1 = pre from rfl] at h
    subst h
    exact absurd hpre (by decide)
  · rw [h] at hseg
    subst hseg
    exact absurd hpre (by decide)

theorem resolve_skip {env : Env} {p : List String} (h : ¬ assetHit p) :
    resolve env p = st_mirror env p := by
  unfold resolve; rw [if_neg h]

theorem st_mirror_skip {env : Env} {p : List String} (h : seg p 1 ≠ "blog2.roomiapp.com") :
    st_mirror env p = st_root_num_idx env p := by
  unfold st_mirror
  rw [if_neg]
  rintro (rfl | rfl | rfl) <;> exact h rfl

theorem st_root_num_idx_skip {env : Env} {p : List String} (h : m_root_num_idx p = none) :
    st_root_num_idx env p = st_root_num_dir env p := by
  unfold st_root_num_idx; rw [h]

theorem st_root_num_dir_skip {env : Env} {p : List String} (h : m_root_num_dir p = none) :
    st_root_num_dir env p = st_static env p := by
  unfold st_root_num_dir; rw [h]

theorem staticStep_skip (env : Env) (page : String) (p : List String) (next : Outcome)
    (h : seg p 1 ≠ page) : staticStep env page p next = next := by
  unfold staticStep
  rw [if_neg fun he => h (by rw [he]; rfl), if_neg]
  rintro (he | he) <;> exact h (by rw [he]; rfl)

theorem st_static_skip {env : Env} {p : List String} (h1 : seg p 1 ≠ "faq")
    (h2 : seg p 1 ≠ "about") (h3 : seg p 1 ≠ "press") :
    st_static env p = st_blog_slash env p := by
  unfold st_static
  rw [staticStep_skip _ _ _ _ h1, staticStep_skip _ _ _ _ h2, staticStep_skip _ _ _ _ h3]

theorem st_blog_slash_skip {env : Env} {p : List String} (h : p.length ≠ 3) :
    st_blog_slash env p = st_blog_index env p := by
  unfold st_blog_slash; rw [if_neg fun he => h (by rw [he]; rfl)]

theorem st_blog_index_skip {env : Env} {p : List String} (h : p.length ≠ 3) :
    st_blog_index env p = st_blog_root env p := by
  unfold st_blog_index; rw [if_neg fun he => h (by rw [he]; rfl)]

theorem st_blog_root_skip {env : Env} {p : List String} (h : p.length ≠ 2) :
    st_blog_root env p = st_lang env p := by
  unfold st_blog_root; rw [if_neg fun he => h (by rw [he]; rfl)]

theorem st_lang_skip {env : Env} {p : List String} (h : m_lang p = none) :
    st_lang env p = st_lang_name_idx env p := by
  unfold st_lang; rw [h]

theorem st_lang_name_idx_skip {env : Env} {p : List String} (h : m_lang_name_idx p = none) :
    st_lang_name_idx env p = st_lang_name_dir env p := by
  unfold st_lang_name_idx; rw [h]; rfl

theorem st_lang_name_dir_skip {env : Env} {p : List String} (h : m_lang_name_dir p = none) :
    st_lang_name_dir env p = st_lang_cat env p := by
  unfold st_lang_name_dir; rw [h]; rfl

theorem st_lang_cat_skip {env : Env} {p : List String} (h : m_lang_cat p = none) :
    st_lang_cat env p = st_cat_slug_idx env p := by
  unfold st_lang_cat; rw [h]

theorem st_cat_slug_idx_skip {env : Env} {p : List String} (h : m_cat_slug_idx p = none) :
    st_cat_slug_idx env p = st_cat_slug_dir env p := by
  unfold st_cat_slug_idx; rw [h]; rfl

theorem st_cat_slug_dir_skip {env : Env} {p : List String} (h : m_cat_slug_dir p = none) :
    st_cat_slug_dir env p = st_page env p := by
  unfold st_cat_slug_dir; rw [h]; rfl

theorem st_page_skip {env : Env} {p : List String} (h : m_page p = none) :
    st_page env p = st_page_old_idx env p := by
  unfold st_page; rw [h]

theorem st_page_old_idx_skip {env : Env} {p : List String} (h : m_page_old_idx p = none) :
    st_page_old_idx env p = st_page_old_dir env p := by
  unfold st_page_old_idx; rw [h]

theorem st_page_old_dir_skip {env : Env} {p : List String} (h : m_page_old_dir p = none) :
    st_page_old_dir env p = st_legacy_lang env p := by
  unfold st_page_old_dir; rw [h]

theorem st_legacy_lang_skip {env : Env} {p : List String} (h : m_legacy_lang p = none) :
    st_legacy_lang env p = st_legacy_lang_cat env p := by
  unfold st_legacy_lang; rw [h]

theorem st_legacy_lang_cat_skip {env : Env} {p : List String}
    (h : m_legacy_lang_cat p = none) :
    st_legacy_lang_cat env p = st_possible_category env p := by
  unfold st_legacy_lang_cat; rw [h]

theorem st_possible_category_skip {env : Env} {p : List String} (h : m_flat p = none) :
    st_possible_category env p = st_nested env p := by
  unfold st_possible_category; rw [h]

theorem st_nested_skip {env : Env} {p : List String} (h : m_nested p = none) :
    st_nested env p = st_flat env p := by
  unfold st_nested; rw [h]

theorem st_flat_skip {env : Env} {p : List String} (h : m_flat p = none) :
    st_flat env p = st_deep_idx env p := by
  unfold st_flat; rw [h]

theorem st_deep_idx_skip {env : Env} {p : List String} (h : m_deep_idx p = none) :
    st_deep_idx env p = st_deep_dir env p := by
  unfold st_deep_idx; rw [h]; rfl

theorem st_deep_dir_skip {env : Env} {p : List String} (h : m_deep_dir p = none) :
    st_deep_dir env p = st_non_blog_idx env p := by
  unfold st_deep_dir; rw [h]; rfl

theorem st_non_blog_idx_skip {env : Env} {p : List String} (h : m_non_blog_idx p = none) :
    st_non_blog_idx env p = st_non_blog_dir env p := by
  unfold st_non_blog_idx; rw [h]; rfl

theorem st_non_blog_dir_skip {env : Env} {p : List String} (h : m_non_blog_dir p = none) :
    st_non_blog_dir env p = st_any env p := by
  unfold st_non_blog_dir; rw [h]; rfl

theorem st_any_blog {env : Env} {p : List String} (h : startsBlogSlash p) :
    st_any env p = st_favicon env p := by
  unfold st_any; rw [if_pos h]

theorem st_favicon_delegate {env : Env} {p : List String} (h : p.length ≠ 2) :
    st_favicon env p = Outcome.delegate := by
  unfold st_favicon; rw [if_neg fun he => h (by rw [he]; rfl)]

/-! ### Helper lemmas about the slug index builder -/

theorem lookupSlug_append_of_some {m : List (String × SlugMeta)} {s : String} {v : SlugMeta}
    (kv : String × SlugMeta) (h : lookupSlug m s = some v) :
    lookupSlug (m ++ [kv]) s = some v := by
  unfold lookupSlug at h ⊢
  rw [List.find?_append]
  rcases Option.map_eq_some'.1 h with ⟨x, hx, hxv⟩
  rw [hx]
  simpa using hxv

theorem lookupSlug_append_self {m : List (String × SlugMeta)} {s : String} (v : SlugMeta)
    (h : lookupSlug m s = none) : lookupSlug (m ++ [(s, v)]) s = some v := by
  unfold lookupSlug at h ⊢
  rw [List.find?_append, Option.map_eq_none'.1 h]
  simp [List.find?]

theorem lookupSlug_append_other {m : List (String × SlugMeta)} {s : String}
    (kv : String × SlugMeta) (h : lookupSlug m s = none) (hne : kv.1 ≠ s) :
    lookupSlug (m ++ [kv]) s = none := by
  unfold lookupSlug at h ⊢
  rw [List.find?_append, Option.map_eq_none'.1 h]
  have hf : (kv.1 == s) = false := beq_eq_false_iff_ne.mpr hne
  simp [List.find?, hf]

theorem buildStep_insert {acc : List (String × SlugMeta) × List (FsPath × FsPath)}
    {e : WalkEntry} (hq : "index.html" ∈ e.files)
    (h : lookupSlug acc.1 (slugOf e) = none) :
    buildStep acc e = (acc.1 ++ [(slugOf e, metaOf e)], acc.2) := by
  unfold buildStep
  rw [if_pos hq, h]

theorem buildStep_collide {acc : List (String × SlugMeta) × List (FsPath × FsPath)}
    {e : WalkEntry} {prev : SlugMeta} (hq : "index.html" ∈ e.files)
    (h : lookupSlug acc.1 (slugOf e) = some prev) :
    buildStep acc e = (acc.1, acc.2 ++ [(absIndexOf e, prev.abs_index_path)]) := by
  unfold buildStep
  rw [if_pos hq, h]

theorem buildStep_lookup_of_some {acc : List (String × SlugMeta) × List (FsPath × FsPath)}
    {e : WalkEntry} {s : String} {v : SlugMeta} (h : lookupSlug acc.1 s = some v) :
    lookupSlug (buildStep acc e).1 s = some v := by
  unfold buildStep
  by_cases hq : "index.html" ∈ e.files
  · rw [if_pos hq]
    cases hl : lookupSlug acc.1 (slugOf e)
    · exact lookupSlug_append_of_some _ h
    · exact h
  · rw [if_neg hq]; exact h

theorem buildStep_warn_mono {acc : List (String × SlugMeta) × List (FsPath × FsPath)}
    {e : WalkEntry} {w : FsPath × FsPath} (h : w ∈ acc.2) : w ∈ (buildStep acc e).2 := by
  unfold buildStep
  by_cases hq : "index.html" ∈ e.files
  · rw [if_pos hq]
    cases hl : lookupSlug acc.1 (slugOf e)
    · exact h
    · exact List.mem_append_left _ h
  · rw [if_neg hq]; exact h

theorem foldl_buildStep_lookup_of_some (es : List WalkEntry)
    {acc : List (String × SlugMeta) × List (FsPath × FsPath)} {s : String} {v : SlugMeta}
    (h : lookupSlug acc.1 s = some v) :
    lookupSlug (es.foldl buildStep acc).1 s = some v := by
  induction es generalizing acc with
  | nil => exact h
  | cons e es ih => exact ih (buildStep_lookup_of_some h)

theorem foldl_buildStep_warn_mono (es : List WalkEntry)
    {acc : List (String × SlugMeta) × List (FsPath × FsPath)} {w : FsPath × FsPath}
    (h : w ∈ acc.2) : w ∈ (es.foldl buildStep acc).2 := by
  induction es generalizing acc with
  | nil => exact h
  | cons e es ih => exact ih (buildStep_warn_mono h)

theorem foldl_buildStep_lookup_none (es : List WalkEntry)
    {acc : List (String × SlugMeta) × List (FsPath × FsPath)} {s : String}
    (h : lookupSlug acc.1 s = none)
    (hnone : ∀ e ∈ es, "index.html" ∈ e.files → slugOf e ≠ s) :
    lookupSlug (es.foldl buildStep acc).1 s = none := by
  induction es generalizing acc with
  | nil => exact h
  | cons e es ih =>
    refine ih ?_ fun e' he' => hnone e' (List.mem_cons_of_mem _ he')
    unfold buildStep
    by_cases hq : "index.html" ∈ e.files
    · rw [if_pos hq]
      cases hl : lookupSlug acc.1 (slugOf e)
      · exact lookupSlug_append_other _ h (hnone e (List.mem_cons_self _ _) hq)
      · exact h
    · rw [if_neg hq]; exact h

theorem foldl_buildStep_mem_source (es : List WalkEntry)
    (acc : List (String × SlugMeta) × List (FsPath × FsPath)) :
    ∀ kv ∈ (es.foldl buildStep acc).1,
      kv ∈ acc.1 ∨ ∃ e ∈ es, "index.html" ∈ e.files ∧ kv = (slugOf e, metaOf e) := by
  induction es generalizing acc with
  | nil => exact fun kv h => Or.inl h
  | cons e es ih =>
    intro kv h
    rcases ih (buildStep acc e) kv h with hin | ⟨e', he', hq', rfl⟩
    · unfold buildStep at hin
      by_cases hq : "index.html" ∈ e.files
      · rw [if_pos hq] at hin
        cases hl : lookupSlug acc.1 (slugOf e)
        · rw [hl] at hin
          rcases List.mem_append.1 hin with h1 | h1
          · exact Or.inl h1
          · exact Or.inr ⟨e, List.mem_cons_self _ _, hq, List.mem_singleton.1 h1⟩
        · rw [hl] at hin
          exact Or.inl hin
      · rw [if_neg hq] at hin
        exact Or.inl hin
    · exact Or.inr ⟨e', List.mem_cons_of_mem _ he', hq', rfl⟩

theorem lookup_build_source {walk : List WalkEntry} {s : String} {m : SlugMeta}
    (h : lookupSlug (build_slug_meta_map walk).1 s = some m) :
    ∃ e ∈ walk, "index.html" ∈ e.files ∧ m = metaOf e := by
  unfold lookupSlug at h
  rcases Option.map_eq_some'.1 h with ⟨kv, hkv, hv⟩
  have hmem := List.mem_of_find?_eq_some hkv
  rcases foldl_buildStep_mem_source walk ([], []) kv hmem with hin | ⟨e, he, hq, rfl⟩
  · simp at hin
  · exact ⟨e, he, hq, hv ▸ rfl⟩

theorem languageOf_ne_empty {e : WalkEntry} {l : String} (h : languageOf e = some l) :
    l ≠ "" := by
  unfold languageOf at h
  by_cases hlen : 3 ≤ (partsOf e).length
  · rw [if_pos hlen] at h
    have h0 : 0 < (partsOf e).length := by omega
    have hm : seg (partsOf e) 0 ∈ partsOf e := by
      unfold seg
      rw [List.getD_eq_getElem _ _ h0]
      exact List.getElem_mem h0
    have := List.of_mem_filter (Option.some.inj h ▸ hm)
    simpa using this
  · rw [if_neg hlen] at h
    exact absurd h (by simp)

theorem categoryOf_ne_empty {e : WalkEntry} {c : String} (h : categoryOf e = some c) :
    c ≠ "" := by
  unfold categoryOf at h
  by_cases hlen : 3 ≤ (partsOf e).length
  · rw [if_pos hlen] at h
    have h1 : 1 < (partsOf e).length := by omega
    have hm : seg (partsOf e) 1 ∈ partsOf e := by
      unfold seg
      rw [List.getD_eq_getElem _ _ h1]
      exact List.getElem_mem h1
    have := List.of_mem_filter (Option.some.inj h ▸ hm)
    simpa using this
  · rw [if_neg hlen] at h
    exact absurd h (by simp)

/-! ### Further helper lemmas for the fixed-arity matchers -/

theorem m_lang_name_idx_none_of_last {p : List String} (h : seg p 4 ≠ "index.html") :
    m_lang_name_idx p = none := by
  unfold m_lang_name_idx; exact if_neg fun hg => h hg.2.2.2.2.2

theorem m_lang_name_dir_none_of_last {p : List String} (h : seg p 4 ≠ "") :
    m_lang_name_dir p = none := by
  unfold m_lang_name_dir; exact if_neg fun hg => h hg.2.2.2.2.2

theorem m_cat_slug_idx_none_of_last {p : List String} (h : seg p 4 ≠ "index.html") :
    m_cat_slug_idx p = none := by
  unfold m_cat_slug_idx; exact if_neg fun hg => h hg.2.2.2.2.2

theorem m_cat_slug_dir_none_of_last {p : List String} (h : seg p 4 ≠ "") :
    m_cat_slug_dir p = none := by
  unfold m_cat_slug_dir; exact if_neg fun hg => h hg.2.2.2.2.2

theorem m_page_old_idx_none_of_last {p : List String} (h : seg p 4 ≠ "index.html") :
    m_page_old_idx p = none := by
  unfold m_page_old_idx; exact if_neg fun hg => h hg.2.2.2.2.2

theorem m_page_old_dir_none_of_last {p : List String} (h4 : p.length ≠ 4)
    (h5 : seg p 4 ≠ "") : m_page_old_dir p = none := by
  unfold m_page_old_dir
  exact if_neg fun hg => by rcases hg.1 with h | h; exact h4 h; exact h5 h.2

/-- Rule 2 with a successful match, written out. -/
theorem st_nested_fire {env : Env} {p : List String} {l c s : String}
    (h : m_nested p = some (l, c, s)) :
    st_nested env p =
      match env.slugMeta s with
      | some meta =>
          if meta.language = some l ∧ meta.category = some c ∧
             env.isFile meta.abs_index_path = true then
            Outcome.serve meta.abs_index_path
          else if env.isFile meta.abs_index_path = true then
            Outcome.redirectPermanent (canonicalSlugUrl meta)
          else Outcome.notFound
      | none => Outcome.notFound := by
  unfold st_nested; rw [h]

/-! ### The claims -/

/-- C1: the spec requires that resolving the canonical URL of an indexed slug
never produces a further permanent redirect.  The code violates this: for a
record without language/category metadata the canonical URL is the flat form
`/blog/<slug>`, and rule 2b redirects that very path to the same canonical
URL — a permanent redirect to itself, i.e. an unbounded redirect chain.
Witnessed with the index the builder itself produces from the content unit
`blog/about/index.html` (whose index file exists). -/
theorem flat_canonical_self_redirect :
    envFlatAbout.slugMeta "about" =
      some ⟨"about", ["blog", "about", "index.html"], none, none⟩ ∧
    canonicalSlugUrl ⟨"about", ["blog", "about", "index.html"], none, none⟩ =
      ["", "blog", "about"] ∧
    resolve envFlatAbout ["", "blog", "about"] =
      Outcome.redirectPermanent ["", "blog", "about"] := by
  decide

/-- C5: resolution is total — every request path ends in exactly one of the
four outcomes `Serve`, `RedirectPermanent`, `NotFound`, `Delegate`.  (The
embedding of `do_GET` is a total function into the four-constructor
`Outcome` type; every branch of the cascade returns one of them.) -/
theorem resolve_total (env : Env) (p : List String) :
    (∃ a, resolve env p = Outcome.serve a) ∨
    (∃ loc, resolve env p = Outcome.redirectPermanent loc) ∨
    resolve env p = Outcome.notFound ∨ resolve env p = Outcome.delegate := by
  cases resolve env p with
  | serve a => exact Or.inl ⟨a, rfl⟩
  | redirectPermanent loc => exact Or.inr (Or.inl ⟨loc, rfl⟩)
  | notFound => exact Or.inr (Or.inr (Or.inl rfl))
  | delegate => exact Or.inr (Or.inr (Or.inr rfl))

/-- C8: the response is fully determined by the resolution of the path alone
(`resolve` does not receive the query string, so routing never inspects it);
a permanent redirect's `Location` is exactly the computed target path with
the original query string appended unchanged, and without any suffix when
the request had no query string. -/
theorem redirect_preserves_query (env : Env) (p : List String) (query : String) :
    do_GET env p query =
      match resolve env p with
      | Outcome.serve a => Response.ok a
      | Outcome.redirectPermanent loc =>
          Response.movedPermanently
            (renderPath loc ++ (if query = "" then "" else "?" ++ query))
      | Outcome.notFound => Response.notFound
      | Outcome.delegate => Response.delegate := by
  unfold do_GET redirectLocation
  cases resolve env p <;> try rfl
  by_cases hq : query = "" <;> simp [hq]

/-- C4 counterexample: the claim says `/blog/page/3` yields `NotFound` when
the page-3 index document is missing; in fact (with a completely empty
content tree) rule 1c rewrites it to a permanent redirect to `/blog/3`. -/
theorem pageThree_redirect_counterexample :
    resolve envEmptyFs ["", "blog", "page", "3"] =
      Outcome.redirectPermanent ["", "blog", "3"] ∧
    resolve envEmptyFs ["", "blog", "page", "3"] ≠ Outcome.notFound := by
  decide

/-- C4 amended: `/blog/page/3` always redirects permanently to `/blog/3`
(whatever the filesystem holds), and it is the redirect target `/blog/3`
that yields `NotFound` when `blog/page/3/index.html` does not exist — the
scenario 404s only after the one legacy-pagination redirect hop. -/
theorem pageThree_amended (env : Env)
    (hf : env.isFile ["blog", "page", "3", "index.html"] = false) :
    resolve env ["", "blog", "page", "3"] = Outcome.redirectPermanent ["", "blog", "3"] ∧
    resolve env ["", "blog", "3"] = Outcome.notFound := by
  refine ⟨rfl, ?_⟩
  show (if env.isFile ["blog", "page", "3", "index.html"] = true then
      serveAbs env ["blog", "page", "3", "index.html"] else Outcome.notFound) =
    Outcome.notFound
  rw [hf]
  simp

/-- C4 amended, witness at the empty content tree. -/
theorem pageThree_amended_witness :
    resolve envEmptyFs ["", "blog", "page", "3"] =
      Outcome.redirectPermanent ["", "blog", "3"] ∧
    resolve envEmptyFs ["", "blog", "3"] = Outcome.notFound :=
  pageThree_amended envEmptyFs (by decide)

/-- C9 counterexample: when `"1"` is itself an indexed slug whose index file
exists (as happens for a real tree containing `blog/page/1/index.html`: the
builder indexes that unit under the slug `"1"`), the request
`/blog/page/1/index.html` is caught by the category/slug rule 1a.y first and
redirects to the flat canonical URL `/blog/1` — not to the bare root `/blog`
the claim promises. -/
theorem pageOneIndex_counterexample :
    resolve envPageOne ["", "blog", "page", "1", "index.html"] =
      Outcome.redirectPermanent ["", "blog", "1"] ∧
    resolve envPageOne ["", "blog", "page", "1", "index.html"] ≠
      Outcome.redirectPermanent ["", "blog"] := by
  decide

/-- C9 amended: `/blog/1` and `/blog/page/1` always redirect permanently to
the bare listing root `/blog`; `/blog/page/1/index.html` does so provided
`"1"` is not an indexed slug with an existing index file (otherwise rule
1a.y redirects it to `/blog/1` first, as the counterexample shows). -/
theorem pageOne_redirects (env : Env)
    (h1 : ∀ m, env.slugMeta "1" = some m → env.isFile m.abs_index_path = false) :
    resolve env ["", "blog", "1"] = Outcome.redirectPermanent ["", "blog"] ∧
    resolve env ["", "blog", "page", "1"] = Outcome.redirectPermanent ["", "blog"] ∧
    resolve env ["", "blog", "page", "1", "index.html"] =
      Outcome.redirectPermanent ["", "blog"] := by
  refine ⟨rfl, rfl, ?_⟩
  have hres : resolve env ["", "blog", "page", "1", "index.html"] =
      st_cat_slug_idx env ["", "blog", "page", "1", "index.html"] := rfl
  rw [hres]
  unfold st_cat_slug_idx
  rw [show m_cat_slug_idx ["", "blog", "page", "1", "index.html"] = some ("page", "1")
    from rfl]
  rw [Option.some_bind]
  cases hm : env.slugMeta "1" with
  | none => rfl
  | some m =>
    show (if env.isFile m.abs_index_path = true then
        Outcome.redirectPermanent (canonicalSlugUrl m)
      else st_cat_slug_dir env ["", "blog", "page", "1", "index.html"]) =
      Outcome.redirectPermanent ["", "blog"]
    rw [h1 m hm]
    simp only [Bool.false_eq_true, if_false]
    rfl

/-- C9 amended, witness at the empty content tree. -/
theorem pageOne_redirects_witness :
    resolve envEmptyFs ["", "blog", "1"] = Outcome.redirectPermanent ["", "blog"] ∧
    resolve envEmptyFs ["", "blog", "page", "1"] = Outcome.redirectPermanent ["", "blog"] ∧
    resolve envEmptyFs ["", "blog", "page", "1", "index.html"] =
      Outcome.redirectPermanent ["", "blog"] :=
  pageOne_redirects envEmptyFs (by decide)

/-- C2: for a request `/blog/<lang>/<category>/<slug>` (three non-empty
segments after the listing root, no trailing slash and no `index.html`
final segment): a slug whose record carries exactly that language and
category is served directly; a known slug under different metadata is
redirected permanently to its canonical URL; an unknown slug yields
`NotFound`.  The serve/redirect branches carry the data-model assumption
that the record's index file (recorded from the tree at build time) exists. -/
theorem nested_path_resolution (env : Env) (l c s : String) (hl : l ≠ "") (hc : c ≠ "")
    (hs : s ≠ "") (hsi : s ≠ "index.html") :
    (∀ rec, env.slugMeta s = some rec → env.isFile rec.abs_index_path = true →
      ((rec.language = some l ∧ rec.category = some c →
        resolve env ["", "blog", l, c, s] = Outcome.serve rec.abs_index_path) ∧
       (¬(rec.language = some l ∧ rec.category = some c) →
        resolve env ["", "blog", l, c, s] =
          Outcome.redirectPermanent (canonicalSlugUrl rec)))) ∧
    (env.slugMeta s = none → resolve env ["", "blog", l, c, s] = Outcome.notFound) := by
  have hb : seg ["", "blog", l, c, s] 1 = "blog" := rfl
  have hb2 : seg ["", "blog", l, c, s] 1 ≠ "blog2.roomiapp.com" := by simp [seg]
  have hfa : seg ["", "blog", l, c, s] 1 ≠ "faq" := by simp [seg]
  have hab : seg ["", "blog", l, c, s] 1 ≠ "about" := by simp [seg]
  have hpr : seg ["", "blog", l, c, s] 1 ≠ "press" := by simp [seg]
  have hl2 : (["", "blog", l, c, s] : List String).length ≠ 2 := by simp
  have hl3 : (["", "blog", l, c, s] : List String).length ≠ 3 := by simp
  have hl4 : (["", "blog", l, c, s] : List String).length ≠ 4 := by simp
  have hs4i : seg ["", "blog", l, c, s] 4 ≠ "index.html" := hsi
  have hs4e : seg ["", "blog", l, c, s] 4 ≠ "" := hs
  have hmn : m_nested ["", "blog", l, c, s] = some (l, c, s) := by
    unfold m_nested
    rw [if_pos ⟨rfl, rfl, rfl, hl, hc, hs⟩]
    rfl
  have hst : resolve env ["", "blog", l, c, s] = st_nested env ["", "blog", l, c, s] := by
    rw [resolve_skip (not_assetHit_of_blog hb), st_mirror_skip hb2,
      st_root_num_idx_skip (m_root_num_idx_none hl3),
      st_root_num_dir_skip (m_root_num_dir_none hl2 hl3),
      st_static_skip hfa hab hpr,
      st_blog_slash_skip hl3, st_blog_index_skip hl3,
      st_blog_root_skip hl2,
      st_lang_skip (m_lang_none hl3),
      st_lang_name_idx_skip (m_lang_name_idx_none_of_last hs4i),
      st_lang_name_dir_skip (m_lang_name_dir_none_of_last hs4e),
      st_lang_cat_skip (m_lang_cat_none hl4),
      st_cat_slug_idx_skip (m_cat_slug_idx_none_of_last hs4i),
      st_cat_slug_dir_skip (m_cat_slug_dir_none_of_last hs4e),
      st_page_skip (m_page_none hl3),
      st_page_old_idx_skip (m_page_old_idx_none_of_last hs4i),
      st_page_old_dir_skip (m_page_old_dir_none_of_last hl4 hs4e),
      st_legacy_lang_skip (m_legacy_lang_none_of_blog hb),
      st_legacy_lang_cat_skip (m_legacy_lang_cat_none_of_blog hb),
      st_possible_category_skip (m_flat_none hl3)]
  refine ⟨fun rec hrec hf => ⟨fun hmatch => ?_, fun hnomatch => ?_⟩, fun hnone => ?_⟩
  · rw [hst, st_nested_fire hmn, hrec]
    show (if rec.language = some l ∧ rec.category = some c ∧
          env.isFile rec.abs_index_path = true then Outcome.serve rec.abs_index_path
        else if env.isFile rec.abs_index_path = true then
          Outcome.redirectPermanent (canonicalSlugUrl rec)
        else Outcome.notFound) = Outcome.serve rec.abs_index_path
    rw [if_pos ⟨hmatch.1, hmatch.2, hf⟩]
  · rw [hst, st_nested_fire hmn, hrec]
    show (if rec.language = some l ∧ rec.category = some c ∧
          env.isFile rec.abs_index_path = true then Outcome.serve rec.abs_index_path
        else if env.isFile rec.abs_index_path = true then
          Outcome.redirectPermanent (canonicalSlugUrl rec)
        else Outcome.notFound) = Outcome.redirectPermanent (canonicalSlugUrl rec)
    rw [if_neg fun hcond => hnomatch ⟨hcond.1, hcond.2.1⟩, if_pos hf]
  · rw [hst, st_nested_fire hmn, hnone]

/-- C2, witness: the tree `blog/us/tips/post/index.html`, requested at its
own canonical nested URL, is served directly. -/
theorem nested_path_resolution_witness :
    resolve envNestedPost ["", "blog", "us", "tips", "post"] =
      Outcome.serve ["blog", "us", "tips", "post", "index.html"] := by
  have h := nested_path_resolution envNestedPost "us" "tips" "post" (by decide) (by decide)
    (by decide) (by decide)
  exact (h.1 ⟨"post", ["blog", "us", "tips", "post", "index.html"], some "us", some "tips"⟩
    (by decide) (by decide)).1 ⟨rfl, rfl⟩

/-- C3: for every record in a built slug index, the canonical URL used by the
redirect rules is the nested form `/blog/<language>/<category>/<slug>` when
language and category are both present, and the flat form `/blog/<slug>`
otherwise.  (The build guarantees a present language/category is a non-empty
string, so Python's truthiness test agrees with presence.) -/
theorem canonical_url_of_record (walk : List WalkEntry) (s : String) (m : SlugMeta)
    (h : lookupSlug (build_slug_meta_map walk).1 s = some m) :
    (∀ l c, m.language = some l → m.category = some c →
      canonicalSlugUrl m = ["", "blog", l, c, m.slug]) ∧
    ((m.language = none ∨ m.category = none) →
      canonicalSlugUrl m = ["", "blog", m.slug]) := by
  obtain ⟨e, he, hq, rfl⟩ := lookup_build_source h
  constructor
  · intro l c hlc hcc
    have hl' : l ≠ "" := languageOf_ne_empty hlc
    have hc' : c ≠ "" := categoryOf_ne_empty hcc
    unfold canonicalSlugUrl
    rw [hlc, hcc]
    show (if l ≠ "" ∧ c ≠ "" then ["", "blog", l, c, (metaOf e).slug]
        else ["", "blog", (metaOf e).slug]) = ["", "blog", l, c, (metaOf e).slug]
    rw [if_pos ⟨hl', hc'⟩]
  · intro h0
    rcases h0 with h0 | h0
    · unfold canonicalSlugUrl
      rw [h0]
    · unfold canonicalSlugUrl
      rw [h0]
      cases hx : (metaOf e).language
      · rfl
      · rfl

/-- C3, witness: the record built from `blog/us/tips/post/index.html` has
canonical URL `/blog/us/tips/post`. -/
theorem canonical_url_of_record_witness :
    canonicalSlugUrl
        ⟨"post", ["blog", "us", "tips", "post", "index.html"], some "us", some "tips"⟩ =
      ["", "blog", "us", "tips", "post"] :=
  (canonical_url_of_record [⟨["us", "tips", "post"], ["index.html"]⟩] "post"
    ⟨"post", ["blog", "us", "tips", "post", "index.html"], some "us", some "tips"⟩
    (by decide)).1 "us" "tips" rfl rfl

/-- C6: first-wins collision policy of the index builder.  If two qualifying
walk entries share a slug and the earlier one is the first qualifying entry
with that slug, then the built map holds the earlier entry's record — the
binding is never overwritten, whatever qualifying entries (including further
duplicates) come between or after — and the warning list records the pair
(discarded path of the later entry, retained path of the first). -/
theorem slug_index_first_wins (pre mid post : List WalkEntry) (e1 e2 : WalkEntry)
    (hq1 : "index.html" ∈ e1.files) (hq2 : "index.html" ∈ e2.files)
    (hslug : slugOf e2 = slugOf e1)
    (hpre : ∀ e ∈ pre, "index.html" ∈ e.files → slugOf e ≠ slugOf e1) :
    lookupSlug (build_slug_meta_map (pre ++ e1 :: mid ++ e2 :: post)).1 (slugOf e1) =
      some (metaOf e1) ∧
    (absIndexOf e2, (metaOf e1).abs_index_path) ∈
      (build_slug_meta_map (pre ++ e1 :: mid ++ e2 :: post)).2 := by
  unfold build_slug_meta_map
  rw [List.foldl_append, List.foldl_cons, List.foldl_append, List.foldl_cons]
  have h0 : lookupSlug (pre.foldl buildStep ([], [])).1 (slugOf e1) = none :=
    foldl_buildStep_lookup_none pre rfl hpre
  have h1 : lookupSlug (buildStep (pre.foldl buildStep ([], [])) e1).1 (slugOf e1) =
      some (metaOf e1) := by
    rw [buildStep_insert hq1 h0]
    exact lookupSlug_append_self _ h0
  have h2 : lookupSlug
      ((mid.foldl buildStep (buildStep (pre.foldl buildStep ([], [])) e1))).1 (slugOf e1) =
      some (metaOf e1) := foldl_buildStep_lookup_of_some mid h1
  have h2' : lookupSlug
      ((mid.foldl buildStep (buildStep (pre.foldl buildStep ([], [])) e1))).1 (slugOf e2) =
      some (metaOf e1) := by rw [hslug]; exact h2
  have h3 := buildStep_collide hq2 h2'
  constructor
  · apply foldl_buildStep_lookup_of_some post
    rw [h3]
    exact h2
  · apply foldl_buildStep_warn_mono post
    rw [h3]
    exact List.mem_append_right _ (List.mem_singleton.2 rfl)

/-- C6, witness: two content units named `dup` (under `us/tips` and
`mexico/cat`); the first wins and the collision warning names both paths. -/
theorem slug_index_first_wins_witness :
    lookupSlug (build_slug_meta_map
        [⟨["us", "tips", "dup"], ["index.html"]⟩,
         ⟨["mexico", "cat", "dup"], ["index.html"]⟩]).1 "dup" =
      some ⟨"dup", ["blog", "us", "tips", "dup", "index.html"], some "us", some "tips"⟩ ∧
    (["blog", "mexico", "cat", "dup", "index.html"],
      ["blog", "us", "tips", "dup", "index.html"]) ∈
      (build_slug_meta_map
        [⟨["us", "tips", "dup"], ["index.html"]⟩,
         ⟨["mexico", "cat", "dup"], ["index.html"]⟩]).2 :=
  slug_index_first_wins [] [] [] ⟨["us", "tips", "dup"], ["index.html"]⟩
    ⟨["mexico", "cat", "dup"], ["index.html"]⟩ (by decide) (by decide) (by decide)
    (by intro e he; exact absurd he (List.not_mem_nil e))

/-- C7 counterexample: the claim says language/category are populated *only*
when the content unit sits exactly three levels deep; but the builder
populates them for any depth of at least three (`len(parts) >= 3`): a unit
at depth four, `blog/a/b/c/d/index.html`, still gets `language = "a"`,
`category = "b"`. -/
theorem language_populated_at_depth_four :
    lookupSlug (build_slug_meta_map [⟨["a", "b", "c", "d"], ["index.html"]⟩]).1 "d" =
      some ⟨"d", ["blog", "a", "b", "c", "d", "index.html"], some "a", some "b"⟩ ∧
    (partsOf ⟨["a", "b", "c", "d"], ["index.html"]⟩).length = 4 := by
  decide

/-- C7 amended: for every record of a built slug index, language and category
are both present or both absent, and they are present exactly when the
originating directory's relative path has at least three segments (rather
than exactly three, as the claim stated). -/
theorem language_category_invariant (walk : List WalkEntry) (s : String) (m : SlugMeta)
    (h : lookupSlug (build_slug_meta_map walk).1 s = some m) :
    ((m.language = none ∧ m.category = none) ∨ (m.language ≠ none ∧ m.category ≠ none)) ∧
    ∃ e ∈ walk, "index.html" ∈ e.files ∧ m = metaOf e ∧
      (m.language ≠ none ↔ 3 ≤ (partsOf e).length) := by
  obtain ⟨e, he, hq, rfl⟩ := lookup_build_source h
  constructor
  · by_cases hlen : 3 ≤ (partsOf e).length
    · exact Or.inr ⟨by simp [metaOf, languageOf, hlen], by simp [metaOf, categoryOf, hlen]⟩
    · exact Or.inl ⟨by simp [metaOf, languageOf, hlen], by simp [metaOf, categoryOf, hlen]⟩
  · refine ⟨e, he, hq, rfl, ?_⟩
    by_cases hlen : 3 ≤ (partsOf e).length <;> simp [metaOf, languageOf, hlen]

/-- C7 amended, witness at the single unit `blog/us/tips/post/index.html`. -/
theorem language_category_invariant_witness :
    (((⟨"post", ["blog", "us", "tips", "post", "index.html"], some "us", some "tips"⟩ :
        SlugMeta).language = none ∧
      (⟨"post", ["blog", "us", "tips", "post", "index.html"], some "us", some "tips"⟩ :
        SlugMeta).category = none) ∨
     ((⟨"post", ["blog", "us", "tips", "post", "index.html"], some "us", some "tips"⟩ :
        SlugMeta).language ≠ none ∧
      (⟨"post", ["blog", "us", "tips", "post", "index.html"], some "us", some "tips"⟩ :
        SlugMeta).category ≠ none)) ∧
    ∃ e ∈ [(⟨["us", "tips", "post"], ["index.html"]⟩ : WalkEntry)],
      "index.html" ∈ e.files ∧
      (⟨"post", ["blog", "us", "tips", "post", "index.html"], some "us", some "tips"⟩ :
        SlugMeta) = metaOf e ∧
      ((⟨"post", ["blog", "us", "tips", "post", "index.html"], some "us", some "tips"⟩ :
        SlugMeta).language ≠ none ↔ 3 ≤ (partsOf e).length) :=
  language_category_invariant [⟨["us", "tips", "post"], ["index.html"]⟩] "post"
    ⟨"post", ["blog", "us", "tips", "post", "index.html"], some "us", some "tips"⟩
    (by decide)

/-! ### Helper lemmas for the deep-shape rules (claim C10) -/

theorem m_lang_name_dir_none_of_lang {p : List String} (h : seg p 2 ∉ LANG_CODES) :
    m_lang_name_dir p = none := by
  unfold m_lang_name_dir; exact if_neg fun hg => h hg.2.2.2.1

theorem m_lang_cat_none_of_empty {p : List String} (h : seg p 3 = "") :
    m_lang_cat p = none := by
  unfold m_lang_cat; exact if_neg fun hg => hg.2.2.2.2 h

theorem m_cat_slug_dir_none_of_empty {p : List String} (h : seg p 2 = "") :
    m_cat_slug_dir p = none := by
  unfold m_cat_slug_dir; exact if_neg fun hg => hg.2.2.2.1 h

theorem m_page_old_dir_none_of_page {p : List String} (h : seg p 2 ≠ "page") :
    m_page_old_dir p = none := by
  unfold m_page_old_dir; exact if_neg fun hg => h hg.2.2.2.1

theorem m_nested_none_of_empty {p : List String} (h : seg p 4 = "") :
    m_nested p = none := by
  unfold m_nested; exact if_neg fun hg => hg.2.2.2.2.2 h

theorem m_deep_idx_none_of_last {p : List String}
    (h : seg p (p.length - 1) ≠ "index.html") : m_deep_idx p = none := by
  unfold m_deep_idx; exact if_neg fun hg => h hg.2.2.2.1

/-- Rule 1a.x (directory form) with a successful match, written out. -/
theorem st_lang_name_dir_fire {env : Env} {p : List String} {a s : String}
    (h : m_lang_name_dir p = some (a, s)) :
    st_lang_name_dir env p =
      match env.slugMeta s with
      | some meta =>
          if env.isFile meta.abs_index_path = true then
            Outcome.redirectPermanent (canonicalSlugUrl meta)
          else st_lang_cat env p
      | none => st_lang_cat env p := by
  unfold st_lang_name_dir; rw [h]; rfl

/-- Rule 1a.1 with a successful match, written out. -/
theorem st_lang_cat_fire {env : Env} {p : List String} {lang category : String}
    (h : m_lang_cat p = some (lang, category)) :
    st_lang_cat env p =
      if env.isFile ["blog", lang, category, "index.html"] = true then
        serveAbs env ["blog", lang, category, "index.html"]
      else st_cat_slug_idx env p := by
  unfold st_lang_cat; rw [h]

/-- Rule 1a.y (directory form) with a successful match, written out. -/
theorem st_cat_slug_dir_fire {env : Env} {p : List String} {a s : String}
    (h : m_cat_slug_dir p = some (a, s)) :
    st_cat_slug_dir env p =
      match env.slugMeta s with
      | some meta =>
          if env.isFile meta.abs_index_path = true then
            Outcome.redirectPermanent (canonicalSlugUrl meta)
          else st_page env p
      | none => st_page env p := by
  unfold st_cat_slug_dir; rw [h]; rfl

/-- Rule 3 with a successful match, written out. -/
theorem st_deep_idx_fire {env : Env} {p : List String} {s : String}
    (h : m_deep_idx p = some s) :
    st_deep_idx env p =
      match env.slugMeta s with
      | some meta => Outcome.redirectPermanent (canonicalSlugUrl meta)
      | none => st_deep_dir env p := by
  unfold st_deep_idx; rw [h]; rfl

/-- Rule 4 with a successful match, written out. -/
theorem st_deep_dir_fire {env : Env} {p : List String} {s : String}
    (h : m_deep_dir p = some s) :
    st_deep_dir env p =
      match env.slugMeta s with
      | some meta =>
          if env.isFile meta.abs_index_path = true then
            Outcome.redirectPermanent (canonicalSlugUrl meta)
          else st_non_blog_idx env p
      | none => st_non_blog_idx env p := by
  unfold st_deep_dir; rw [h]; rfl

/-- After rule 4 fails, a path under `/blog/` reaches the delegate fallback
(rules 5-7 are gated on non-`/blog/` section names, rule 8 on length 2). -/
theorem st_non_blog_idx_to_delegate {env : Env} {p : List String}
    (hb : seg p 1 = "blog") (h0 : seg p 0 = "") (h3 : 3 ≤ p.length) :
    st_non_blog_idx env p = Outcome.delegate := by
  rw [st_non_blog_idx_skip (m_non_blog_idx_none_of_blog hb),
    st_non_blog_dir_skip (m_non_blog_dir_none_of_blog hb),
    st_any_blog ⟨h3, h0, hb⟩, st_favicon_delegate (by omega)]

/-- `/blog/<slug>/` for an indexed slug: a file-gated redirect (rule 4);
falls through to the delegate when the slug's index file is missing. -/
theorem resolve_dir4 (env : Env) (s : String) (m : SlugMeta) (hs : s ≠ "")
    (hm : env.slugMeta s = some m) :
    (env.isFile m.abs_index_path = true →
      resolve env ["", "blog", s, ""] =
        Outcome.redirectPermanent (canonicalSlugUrl m)) ∧
    (env.isFile m.abs_index_path = false →
      resolve env ["", "blog", s, ""] = Outcome.delegate) := by
  have hb : seg ["", "blog", s, ""] 1 = "blog" := rfl
  have hb2 : seg ["", "blog", s, ""] 1 ≠ "blog2.roomiapp.com" := by simp [seg]
  have hfa : seg ["", "blog", s, ""] 1 ≠ "faq" := by simp [seg]
  have hab : seg ["", "blog", s, ""] 1 ≠ "about" := by simp [seg]
  have hpr : seg ["", "blog", s, ""] 1 ≠ "press" := by simp [seg]
  have hl2 : (["", "blog", s, ""] : List String).length ≠ 2 := by simp
  have hl3 : (["", "blog", s, ""] : List String).length ≠ 3 := by simp
  have hl5 : (["", "blog", s, ""] : List String).length ≠ 5 := by simp
  have hdig : ¬ isDigits (seg ["", "blog", s, ""] 3) = true := by simp [seg, isDigits]
  have hempty3 : seg ["", "blog", s, ""] 3 = "" := rfl
  have hnotidx : seg ["", "blog", s, ""] ((["", "blog", s, ""] : List String).length - 1) ≠
      "index.html" := by simp [seg]
  have hdeep : m_deep_dir ["", "blog", s, ""] = some s := by
    unfold m_deep_dir
    rw [if_pos ⟨by simp, rfl, rfl, rfl, hs⟩]
    rfl
  have hstart : resolve env ["", "blog", s, ""] =
      st_deep_dir env ["", "blog", s, ""] := by
    rw [resolve_skip (not_assetHit_of_blog hb), st_mirror_skip hb2,
      st_root_num_idx_skip (m_root_num_idx_none hl3),
      st_root_num_dir_skip (m_root_num_dir_none hl2 hl3),
      st_static_skip hfa hab hpr, st_blog_slash_skip hl3, st_blog_index_skip hl3,
      st_blog_root_skip hl2, st_lang_skip (m_lang_none hl3),
      st_lang_name_idx_skip (m_lang_name_idx_none hl5),
      st_lang_name_dir_skip (m_lang_name_dir_none hl5),
      st_lang_cat_skip (m_lang_cat_none_of_empty hempty3),
      st_cat_slug_idx_skip (m_cat_slug_idx_none hl5),
      st_cat_slug_dir_skip (m_cat_slug_dir_none hl5),
      st_page_skip (m_page_none hl3),
      st_page_old_idx_skip (m_page_old_idx_none hl5),
      st_page_old_dir_skip (m_page_old_dir_none_of_digits hdig),
      st_legacy_lang_skip (m_legacy_lang_none_of_blog hb),
      st_legacy_lang_cat_skip (m_legacy_lang_cat_none_of_blog hb),
      st_possible_category_skip (m_flat_none hl3),
      st_nested_skip (m_nested_none hl5),
      st_flat_skip (m_flat_none hl3),
      st_deep_idx_skip (m_deep_idx_none_of_last hnotidx)]
  constructor
  · intro hf
    rw [hstart, st_deep_dir_fire hdeep, hm]
    show (if env.isFile m.abs_index_path = true then
        Outcome.redirectPermanent (canonicalSlugUrl m)
      else st_non_blog_idx env ["", "blog", s, ""]) =
      Outcome.redirectPermanent (canonicalSlugUrl m)
    rw [if_pos hf]
  · intro hf
    rw [hstart, st_deep_dir_fire hdeep, hm]
    show (if env.isFile m.abs_index_path = true then
        Outcome.redirectPermanent (canonicalSlugUrl m)
      else st_non_blog_idx env ["", "blog", s, ""]) = Outcome.delegate
    rw [hf]
    simp only [Bool.false_eq_true, if_false]
    exact st_non_blog_idx_to_delegate rfl rfl (by simp)

/-- `/blog/<x>/<slug>/` for an indexed slug: whichever of rules 1a.x, 1a.y
or 4 fires, the redirect is gated on the slug's index file and targets the
canonical URL; with the file missing the request falls through to the
delegate (unless the legacy pagination rule intercepts `/blog/page/<n>/`). -/
theorem resolve_dir5 (env : Env) (x s : String) (m : SlugMeta) (hs : s ≠ "")
    (hm : env.slugMeta s = some m) :
    (env.isFile m.abs_index_path = true →
      resolve env ["", "blog", x, s, ""] =
        Outcome.redirectPermanent (canonicalSlugUrl m)) ∧
    (env.isFile m.abs_index_path = false → ¬(x = "page" ∧ isDigits s = true) →
      resolve env ["", "blog", x, s, ""] = Outcome.delegate) := by
  have hb : seg ["", "blog", x, s, ""] 1 = "blog" := rfl
  have hb2 : seg ["", "blog", x, s, ""] 1 ≠ "blog2.roomiapp.com" := by simp [seg]
  have hfa : seg ["", "blog", x, s, ""] 1 ≠ "faq" := by simp [seg]
  have hab : seg ["", "blog", x, s, ""] 1 ≠ "about" := by simp [seg]
  have hpr : seg ["", "blog", x, s, ""] 1 ≠ "press" := by simp [seg]
  have hl2 : (["", "blog", x, s, ""] : List String).length ≠ 2 := by simp
  have hl3 : (["", "blog", x, s, ""] : List String).length ≠ 3 := by simp
  have hl4 : (["", "blog", x, s, ""] : List String).length ≠ 4 := by simp
  have hs4i : seg ["", "blog", x, s, ""] 4 ≠ "index.html" := by simp [seg]
  have hs4e : seg ["", "blog", x, s, ""] 4 = "" := rfl
  have hnotidx : seg ["", "blog", x, s, ""]
      ((["", "blog", x, s, ""] : List String).length - 1) ≠ "index.html" := by simp [seg]
  have hstart : resolve env ["", "blog", x, s, ""] =
      st_lang_name_dir env ["", "blog", x, s, ""] := by
    rw [resolve_skip (not_assetHit_of_blog hb), st_mirror_skip hb2,
      st_root_num_idx_skip (m_root_num_idx_none hl3),
      st_root_num_dir_skip (m_root_num_dir_none hl2 hl3),
      st_static_skip hfa hab hpr, st_blog_slash_skip hl3, st_blog_index_skip hl3,
      st_blog_root_skip hl2, st_lang_skip (m_lang_none hl3),
      st_lang_name_idx_skip (m_lang_name_idx_none_of_last hs4i)]
  have hdeep : m_deep_dir ["", "blog", x, s, ""] = some s := by
    unfold m_deep_dir
    rw [if_pos ⟨by simp, rfl, rfl, rfl, hs⟩]
    rfl
  have htail : m_page_old_dir ["", "blog", x, s, ""] = none →
      st_page env ["", "blog", x, s, ""] = st_deep_dir env ["", "blog", x, s, ""] :=
    fun hpg => by
      rw [st_page_skip (m_page_none hl3),
        st_page_old_idx_skip (m_page_old_idx_none_of_last hs4i),
        st_page_old_dir_skip hpg,
        st_legacy_lang_skip (m_legacy_lang_none_of_blog hb),
        st_legacy_lang_cat_skip (m_legacy_lang_cat_none_of_blog hb),
        st_possible_category_skip (m_flat_none hl3),
        st_nested_skip (m_nested_none_of_empty hs4e),
        st_flat_skip (m_flat_none hl3),
        st_deep_idx_skip (m_deep_idx_none_of_last hnotidx)]
  have hout_t : env.isFile m.abs_index_path = true →
      st_deep_dir env ["", "blog", x, s, ""] =
        Outcome.redirectPermanent (canonicalSlugUrl m) := fun hf => by
    rw [st_deep_dir_fire hdeep, hm]
    show (if env.isFile m.abs_index_path = true then
        Outcome.redirectPermanent (canonicalSlugUrl m)
      else st_non_blog_idx env ["", "blog", x, s, ""]) =
      Outcome.redirectPermanent (canonicalSlugUrl m)
    rw [if_pos hf]
  have hout_f : env.isFile m.abs_index_path = false →
      st_deep_dir env ["", "blog", x, s, ""] = Outcome.delegate := fun hf => by
    rw [st_deep_dir_fire hdeep, hm]
    show (if env.isFile m.abs_index_path = true then
        Outcome.redirectPermanent (canonicalSlugUrl m)
      else st_non_blog_idx env ["", "blog", x, s, ""]) = Outcome.delegate
    rw [hf]
    simp only [Bool.false_eq_true, if_false]
    exact st_non_blog_idx_to_delegate rfl rfl (by simp)
  constructor
  · intro hf
    by_cases hx1 : x ∈ LANG_CODES
    · have hfire : m_lang_name_dir ["", "blog", x, s, ""] = some (x, s) := by
        unfold m_lang_name_dir
        rw [if_pos ⟨rfl, rfl, rfl, hx1, hs, rfl⟩]
        rfl
      rw [hstart, st_lang_name_dir_fire hfire, hm]
      show (if env.isFile m.abs_index_path = true then
          Outcome.redirectPermanent (canonicalSlugUrl m)
        else st_lang_cat env ["", "blog", x, s, ""]) =
        Outcome.redirectPermanent (canonicalSlugUrl m)
      rw [if_pos hf]
    · have hlang2 : seg ["", "blog", x, s, ""] 2 ∉ LANG_CODES := hx1
      by_cases hx0 : x = ""
      · have hemp2 : seg ["", "blog", x, s, ""] 2 = "" := hx0
        have hpg2 : seg ["", "blog", x, s, ""] 2 ≠ "page" := by simp [seg, hx0]
        rw [hstart, st_lang_name_dir_skip (m_lang_name_dir_none_of_lang hlang2),
          st_lang_cat_skip (m_lang_cat_none hl4),
          st_cat_slug_idx_skip (m_cat_slug_idx_none_of_last hs4i),
          st_cat_slug_dir_skip (m_cat_slug_dir_none_of_empty hemp2),
          htail (m_page_old_dir_none_of_page hpg2), hout_t hf]
      · have hfire : m_cat_slug_dir ["", "blog", x, s, ""] = some (x, s) := by
          unfold m_cat_slug_dir
          rw [if_pos ⟨rfl, rfl, rfl, hx0, hs, rfl⟩]
          rfl
        rw [hstart, st_lang_name_dir_skip (m_lang_name_dir_none_of_lang hlang2),
          st_lang_cat_skip (m_lang_cat_none hl4),
          st_cat_slug_idx_skip (m_cat_slug_idx_none_of_last hs4i),
          st_cat_slug_dir_fire hfire, hm]
        show (if env.isFile m.abs_index_path = true then
            Outcome.redirectPermanent (canonicalSlugUrl m)
          else st_page env ["", "blog", x, s, ""]) =
          Outcome.redirectPermanent (canonicalSlugUrl m)
        rw [if_pos hf]
  · intro hf hxp
    have hpg : m_page_old_dir ["", "blog", x, s, ""] = none := by
      by_cases hxpage : x = "page"
      · refine m_page_old_dir_none_of_digits fun hd => hxp ⟨hxpage, ?_⟩
        exact hd
      · exact m_page_old_dir_none_of_page hxpage
    by_cases hx1 : x ∈ LANG_CODES
    · have hfire : m_lang_name_dir ["", "blog", x, s, ""] = some (x, s) := by
        unfold m_lang_name_dir
        rw [if_pos ⟨rfl, rfl, rfl, hx1, hs, rfl⟩]
        rfl
      have hxne : x ≠ "" := fun h0 => by
        rw [h0] at hx1
        exact absurd hx1 (by decide)
      have hfire2 : m_cat_slug_dir ["", "blog", x, s, ""] = some (x, s) := by
        unfold m_cat_slug_dir
        rw [if_pos ⟨rfl, rfl, rfl, hxne, hs, rfl⟩]
        rfl
      rw [hstart, st_lang_name_dir_fire hfire, hm]
      show (if env.isFile m.abs_index_path = true then
          Outcome.redirectPermanent (canonicalSlugUrl m)
        else st_lang_cat env ["", "blog", x, s, ""]) = Outcome.delegate
      rw [hf]
      simp only [Bool.false_eq_true, if_false]
      rw [st_lang_cat_skip (m_lang_cat_none hl4),
        st_cat_slug_idx_skip (m_cat_slug_idx_none_of_last hs4i),
        st_cat_slug_dir_fire hfire2, hm]
      show (if env.isFile m.abs_index_path = true then
          Outcome.redirectPermanent (canonicalSlugUrl m)
        else st_page env ["", "blog", x, s, ""]) = Outcome.delegate
      rw [hf]
      simp only [Bool.false_eq_true, if_false]
      rw [htail hpg, hout_f hf]
    · have hlang2 : seg ["", "blog", x, s, ""] 2 ∉ LANG_CODES := hx1
      by_cases hx0 : x = ""
      · have hemp2 : seg ["", "blog", x, s, ""] 2 = "" := hx0
        rw [hstart, st_lang_name_dir_skip (m_lang_name_dir_none_of_lang hlang2),
          st_lang_cat_skip (m_lang_cat_none hl4),
          st_cat_slug_idx_skip (m_cat_slug_idx_none_of_last hs4i),
          st_cat_slug_dir_skip (m_cat_slug_dir_none_of_empty hemp2),
          htail hpg, hout_f hf]
      · have hfire2 : m_cat_slug_dir ["", "blog", x, s, ""] = some (x, s) := by
          unfold m_cat_slug_dir
          rw [if_pos ⟨rfl, rfl, rfl, hx0, hs, rfl⟩]
          rfl
        rw [hstart, st_lang_name_dir_skip (m_lang_name_dir_none_of_lang hlang2),
          st_lang_cat_skip (m_lang_cat_none hl4),
          st_cat_slug_idx_skip (m_cat_slug_idx_none_of_last hs4i),
          st_cat_slug_dir_fire hfire2, hm]
        show (if env.isFile m.abs_index_path = true then
            Outcome.redirectPermanent (canonicalSlugUrl m)
          else st_page env ["", "blog", x, s, ""]) = Outcome.delegate
        rw [hf]
        simp only [Bool.false_eq_true, if_false]
        rw [htail hpg, hout_f hf]

/-- `/blog/<p1>/<p2>/.../<slug>/` with at least two intermediate segments:
only rule 4 can fire — a file-gated redirect to the canonical URL, and the
delegate when the file is missing. -/
theorem resolve_dirlong (env : Env) (mid : List String) (s : String) (m : SlugMeta)
    (hmid : 2 ≤ mid.length) (hs : s ≠ "") (hm : env.slugMeta s = some m) :
    (env.isFile m.abs_index_path = true →
      resolve env (("" :: "blog" :: mid) ++ [s, ""]) =
        Outcome.redirectPermanent (canonicalSlugUrl m)) ∧
    (env.isFile m.abs_index_path = false →
      resolve env (("" :: "blog" :: mid) ++ [s, ""]) = Outcome.delegate) := by
  set p : List String := ("" :: "blog" :: mid) ++ [s, ""] with hp
  have hlen : p.length = mid.length + 4 := by simp [hp]
  have hseg0 : seg p 0 = "" := rfl
  have hseg1 : seg p 1 = "blog" := rfl
  have hlast : seg p (p.length - 1) = "" := seg_last_of_append_two _ _ _
  have hpen : seg p (p.length - 2) = s := seg_pen_of_append_two _ _ _
  have hdeep : m_deep_dir p = some s := by
    unfold m_deep_dir
    rw [if_pos ⟨by omega, hseg0, hseg1, hlast, by rw [hpen]; exact hs⟩, hpen]
  have hnotidx : seg p (p.length - 1) ≠ "index.html" := by rw [hlast]; decide
  have hstart : resolve env p = st_deep_dir env p := by
    rw [resolve_skip (not_assetHit_of_blog hseg1), st_mirror_skip (by rw [hseg1]; decide),
      st_root_num_idx_skip (m_root_num_idx_none (by omega)),
      st_root_num_dir_skip (m_root_num_dir_none (by omega) (by omega)),
      st_static_skip (by rw [hseg1]; decide) (by rw [hseg1]; decide)
        (by rw [hseg1]; decide),
      st_blog_slash_skip (by omega), st_blog_index_skip (by omega),
      st_blog_root_skip (by omega),
      st_lang_skip (m_lang_none (by omega)),
      st_lang_name_idx_skip (m_lang_name_idx_none (by omega)),
      st_lang_name_dir_skip (m_lang_name_dir_none (by omega)),
      st_lang_cat_skip (m_lang_cat_none (by omega)),
      st_cat_slug_idx_skip (m_cat_slug_idx_none (by omega)),
      st_cat_slug_dir_skip (m_cat_slug_dir_none (by omega)),
      st_page_skip (m_page_none (by omega)),
      st_page_old_idx_skip (m_page_old_idx_none (by omega)),
      st_page_old_dir_skip (m_page_old_dir_none (by omega) (by omega)),
      st_legacy_lang_skip (m_legacy_lang_none_of_blog hseg1),
      st_legacy_lang_cat_skip (m_legacy_lang_cat_none_of_blog hseg1),
      st_possible_category_skip (m_flat_none (by omega)),
      st_nested_skip (m_nested_none (by omega)),
      st_flat_skip (m_flat_none (by omega)),
      st_deep_idx_skip (m_deep_idx_none_of_last hnotidx)]
  constructor
  · intro hf
    rw [hstart, st_deep_dir_fire hdeep, hm]
    show (if env.isFile m.abs_index_path = true then
        Outcome.redirectPermanent (canonicalSlugUrl m)
      else st_non_blog_idx env p) = Outcome.redirectPermanent (canonicalSlugUrl m)
    rw [if_pos hf]
  · intro hf
    rw [hstart, st_deep_dir_fire hdeep, hm]
    show (if env.isFile m.abs_index_path = true then
        Outcome.redirectPermanent (canonicalSlugUrl m)
      else st_non_blog_idx env p) = Outcome.delegate
    rw [hf]
    simp only [Bool.false_eq_true, if_false]
    exact st_non_blog_idx_to_delegate hseg1 hseg0 (by omega)

/-- `/blog/.../<slug>/index.html` with at least two intermediate segments:
only rule 3 can fire — an unconditional redirect to the canonical URL,
with no filesystem check at all. -/
theorem resolve_idxlong (env : Env) (mid : List String) (s : String) (m : SlugMeta)
    (hmid : 2 ≤ mid.length) (hs : s ≠ "") (hm : env.slugMeta s = some m) :
    resolve env (("" :: "blog" :: mid) ++ [s, "index.html"]) =
      Outcome.redirectPermanent (canonicalSlugUrl m) := by
  set p : List String := ("" :: "blog" :: mid) ++ [s, "index.html"] with hp
  have hlen : p.length = mid.length + 4 := by simp [hp]
  have hseg0 : seg p 0 = "" := rfl
  have hseg1 : seg p 1 = "blog" := rfl
  have hlast : seg p (p.length - 1) = "index.html" := seg_last_of_append_two _ _ _
  have hpen : seg p (p.length - 2) = s := seg_pen_of_append_two _ _ _
  have hdeep : m_deep_idx p = some s := by
    unfold m_deep_idx
    rw [if_pos ⟨by omega, hseg0, hseg1, hlast, by rw [hpen]; exact hs⟩, hpen]
  rw [resolve_skip (not_assetHit_of_blog hseg1), st_mirror_skip (by rw [hseg1]; decide),
    st_root_num_idx_skip (m_root_num_idx_none (by omega)),
    st_root_num_dir_skip (m_root_num_dir_none (by omega) (by omega)),
    st_static_skip (by rw [hseg1]; decide) (by rw [hseg1]; decide)
      (by rw [hseg1]; decide),
    st_blog_slash_skip (by omega), st_blog_index_skip (by omega),
    st_blog_root_skip (by omega),
    st_lang_skip (m_lang_none (by omega)),
    st_lang_name_idx_skip (m_lang_name_idx_none (by omega)),
    st_lang_name_dir_skip (m_lang_name_dir_none (by omega)),
    st_lang_cat_skip (m_lang_cat_none (by omega)),
    st_cat_slug_idx_skip (m_cat_slug_idx_none (by omega)),
    st_cat_slug_dir_skip (m_cat_slug_dir_none (by omega)),
    st_page_skip (m_page_none (by omega)),
    st_page_old_idx_skip (m_page_old_idx_none (by omega)),
    st_page_old_dir_skip (m_page_old_dir_none (by omega) (by omega)),
    st_legacy_lang_skip (m_legacy_lang_none_of_blog hseg1),
    st_legacy_lang_cat_skip (m_legacy_lang_cat_none_of_blog hseg1),
    st_possible_category_skip (m_flat_none (by omega)),
    st_nested_skip (m_nested_none (by omega)),
    st_flat_skip (m_flat_none (by omega)),
    st_deep_idx_fire hdeep, hm]

/-- `/blog/<slug>/index.html` for an indexed slug: rule 3 redirects to the
canonical URL without consulting the filesystem, provided the slug is not a
language code shadowed by a (degenerate) `blog/<lang>/index.html/index.html`
file that rule 1a.1 would serve. -/
theorem resolve_idx4 (env : Env) (s : String) (m : SlugMeta) (hs : s ≠ "")
    (hm : env.slugMeta s = some m)
    (hlang : s ∈ LANG_CODES → env.isFile ["blog", s, "index.html", "index.html"] = false) :
    resolve env ["", "blog", s, "index.html"] =
      Outcome.redirectPermanent (canonicalSlugUrl m) := by
  have hb : seg ["", "blog", s, "index.html"] 1 = "blog" := rfl
  have hb2 : seg ["", "blog", s, "index.html"] 1 ≠ "blog2.roomiapp.com" := by simp [seg]
  have hfa : seg ["", "blog", s, "index.html"] 1 ≠ "faq" := by simp [seg]
  have hab : seg ["", "blog", s, "index.html"] 1 ≠ "about" := by simp [seg]
  have hpr : seg ["", "blog", s, "index.html"] 1 ≠ "press" := by simp [seg]
  have hl2 : (["", "blog", s, "index.html"] : List String).length ≠ 2 := by simp
  have hl3 : (["", "blog", s, "index.html"] : List String).length ≠ 3 := by simp
  have hl5 : (["", "blog", s, "index.html"] : List String).length ≠ 5 := by simp
  have hdig : ¬ isDigits (seg ["", "blog", s, "index.html"] 3) = true := by
    simp [seg, isDigits]
  have hdeep : m_deep_idx ["", "blog", s, "index.html"] = some s := by
    unfold m_deep_idx
    rw [if_pos ⟨by simp, rfl, rfl, rfl, hs⟩]
    rfl
  have hstart : resolve env ["", "blog", s, "index.html"] =
      st_lang_cat env ["", "blog", s, "index.html"] := by
    rw [resolve_skip (not_assetHit_of_blog hb), st_mirror_skip hb2,
      st_root_num_idx_skip (m_root_num_idx_none hl3),
      st_root_num_dir_skip (m_root_num_dir_none hl2 hl3),
      st_static_skip hfa hab hpr, st_blog_slash_skip hl3, st_blog_index_skip hl3,
      st_blog_root_skip hl2, st_lang_skip (m_lang_none hl3),
      st_lang_name_idx_skip (m_lang_name_idx_none hl5),
      st_lang_name_dir_skip (m_lang_name_dir_none hl5)]
  have hcont : st_cat_slug_idx env ["", "blog", s, "index.html"] =
      Outcome.redirectPermanent (canonicalSlugUrl m) := by
    rw [st_cat_slug_idx_skip (m_cat_slug_idx_none hl5),
      st_cat_slug_dir_skip (m_cat_slug_dir_none hl5),
      st_page_skip (m_page_none hl3),
      st_page_old_idx_skip (m_page_old_idx_none hl5),
      st_page_old_dir_skip (m_page_old_dir_none_of_digits hdig),
      st_legacy_lang_skip (m_legacy_lang_none_of_blog hb),
      st_legacy_lang_cat_skip (m_legacy_lang_cat_none_of_blog hb),
      st_possible_category_skip (m_flat_none hl3),
      st_nested_skip (m_nested_none hl5),
      st_flat_skip (m_flat_none hl3),
      st_deep_idx_fire hdeep, hm]
  by_cases hsl : s ∈ LANG_CODES
  · have hfire : m_lang_cat ["", "blog", s, "index.html"] = some (s, "index.html") := by
      unfold m_lang_cat
      rw [if_pos ⟨rfl, rfl, rfl, hsl, by simp [seg]⟩]
      rfl
    rw [hstart, st_lang_cat_fire hfire, hlang hsl]
    simp only [Bool.false_eq_true, if_false]
    exact hcont
  · have hlang2 : seg ["", "blog", s, "index.html"] 2 ∉ LANG_CODES := hsl
    rw [hstart, st_lang_cat_skip (m_lang_cat_none_of_lang hlang2)]
    exact hcont

/-- C10 counterexample: the claim says every `/blog/.../<slug>/index.html`
with an indexed slug redirects without checking that the slug's index file
exists.  For the five-segment shape `/blog/<x>/<slug>/index.html` the
file-gated rule 1a.y runs first; with the file missing it falls through and
rule 2 answers `NotFound` — no redirect is issued. -/
theorem deep_index_file_check_counterexample :
    (envDeepMissing.slugMeta "post").isSome = true ∧
    resolve envDeepMissing ["", "blog", "x", "post", "index.html"] =
      Outcome.notFound := by
  decide

/-- C10 amended: for an indexed slug `s`,
(1) `/blog/.../s/index.html` with two or more intermediate segments
redirects permanently to the canonical URL with no filesystem check;
(2) so does `/blog/s/index.html` (unless `s` is a language code shadowed by
a degenerate `blog/s/index.html/index.html` file);
with exactly one intermediate segment the redirect is instead file-gated
(see the counterexample).  The trailing-slash forms `/blog/.../s/` redirect
to the canonical URL only when the slug's index file exists —
(3) — and otherwise
(4) fall through to the delegate (except for the pagination shape
`/blog/page/<n>/`). -/
theorem deep_index_vs_trailing_slash (env : Env) (mid : List String) (s : String)
    (m : SlugMeta) (hs : s ≠ "") (hm : env.slugMeta s = some m) :
    (2 ≤ mid.length →
      resolve env (("" :: "blog" :: mid) ++ [s, "index.html"]) =
        Outcome.redirectPermanent (canonicalSlugUrl m)) ∧
    ((s ∈ LANG_CODES → env.isFile ["blog", s, "index.html", "index.html"] = false) →
      resolve env ["", "blog", s, "index.html"] =
        Outcome.redirectPermanent (canonicalSlugUrl m)) ∧
    (env.isFile m.abs_index_path = true →
      resolve env (("" :: "blog" :: mid) ++ [s, ""]) =
        Outcome.redirectPermanent (canonicalSlugUrl m)) ∧
    (env.isFile m.abs_index_path = false → ¬(mid = ["page"] ∧ isDigits s = true) →
      resolve env (("" :: "blog" :: mid) ++ [s, ""]) = Outcome.delegate) := by
  refine ⟨fun hmid => resolve_idxlong env mid s m hmid hs hm,
    fun hlang => resolve_idx4 env s m hs hm hlang, ?_, ?_⟩
  · intro hf
    match mid with
    | [] => exact (resolve_dir4 env s m hs hm).1 hf
    | [x] => exact (resolve_dir5 env x s m hs hm).1 hf
    | x :: y :: rest => exact (resolve_dirlong env (x :: y :: rest) s m (by simp) hs hm).1 hf
  · intro hf hnp
    match mid, hnp with
    | [], _ => exact (resolve_dir4 env s m hs hm).2 hf
    | [x], hnp =>
      refine (resolve_dir5 env x s m hs hm).2 hf fun hc => hnp ⟨?_, hc.2⟩
      rw [hc.1]
    | x :: y :: rest, _ =>
      exact (resolve_dirlong env (x :: y :: rest) s m (by simp) hs hm).2 hf

/-- C10 amended, witness: with the tree `blog/us/tips/post/index.html`, both
`/blog/a/b/post/index.html` (no file check needed) and `/blog/a/b/post/`
(file exists) redirect to the canonical `/blog/us/tips/post`. -/
theorem deep_index_vs_trailing_slash_witness :
    resolve envNestedPost ["", "blog", "a", "b", "post", "index.html"] =
      Outcome.redirectPermanent ["", "blog", "us", "tips", "post"] ∧
    resolve envNestedPost ["", "blog", "a", "b", "post", ""] =
      Outcome.redirectPermanent ["", "blog", "us", "tips", "post"] := by
  have h := deep_index_vs_trailing_slash envNestedPost ["a", "b"] "post"
    ⟨"post", ["blog", "us", "tips", "post", "index.html"], some "us", some "tips"⟩
    (by decide) (by decide)
  exact ⟨h.1 (by decide), h.2.2.1 (by decide)⟩
